import Mathlib

set_option maxHeartbeats 1000000

/-!
Verification development for the kiosk backend.

The definitions below are shallow embeddings of the Python sources:
  core/fsm.py, core/event_bus.py, logic/machine.py, logic/cart.py,
  logic/planogram.py, db/database.py, db/model.py.
Python dictionaries are modelled as insertion-ordered association lists,
collections.deque as lists with the newest element at the head
(appendleft = cons, pop = remove the last element), database tables as
lists of rows, machine integers as Int (Python integers are unbounded),
and raised exceptions as Except values where a claim depends on them.
-/

/-! ### Association lists (Python dict, insertion ordered) -/

def assocGet [DecidableEq κ] : List (κ × α) → κ → Option α
  | [], _ => none
  | (k, v) :: rest, key => if k = key then some v else assocGet rest key

def assocSet [DecidableEq κ] : List (κ × α) → κ → α → List (κ × α)
  | [], key, value => [(key, value)]
  | (k, v) :: rest, key, value =>
      if k = key then (k, value) :: rest else (k, v) :: assocSet rest key value

/-! ### core/fsm.py

States are of type sigma, transition predicates read an environment of
type epsilon (the Python cond_checkers are closures over module state),
and the enter and exit callbacks emit events of type beta.  A callback
receives the value get_current_state() would return at call time: the
source commits self._current_state only after do_exit and do_enter ran,
so during both callbacks the current state is still the old one. -/

structure FSMTransition (σ ε β : Type) where
  to_state : σ
  cond_checker : ε → Bool

/-- FSMTransition.should_transition from core/fsm.py. -/
def FSMTransition.should_transition (t : FSMTransition σ ε β) (env : ε) :
    Bool × Option σ :=
  if t.cond_checker env then (true, some t.to_state) else (false, none)

structure FSMState (σ ε β : Type) where
  name : String
  on_enter : Option σ → List β
  on_exit : Option σ → List β
  transitions : List (FSMTransition σ ε β)

/-- The loop body of FSMState.get_next_state: walk the configured
transitions and return the target of the first that should activate. -/
def getNextStateFrom (env : ε) : List (FSMTransition σ ε β) → Option σ
  | [] => none
  | t :: ts =>
      let r := t.should_transition env
      if r.fst then r.snd else getNextStateFrom env ts

/-- FSMState.get_next_state from core/fsm.py. -/
def FSMState.get_next_state (st : FSMState σ ε β) (env : ε) : Option σ :=
  getNextStateFrom env st.transitions

structure FSM (σ ε β : Type) where
  states : List (σ × FSMState σ ε β)
  current_state : Option σ

/-- FSM.add_state: register a state, optionally making it initial.  A
callback the source leaves as None is passed as fun _ => []. -/
def FSM.add_state [DecidableEq σ] (m : FSM σ ε β) (state : σ) (name : String)
    (on_enter on_exit : Option σ → List β) (is_initial : Bool) : FSM σ ε β :=
  { states := assocSet m.states state ⟨name, on_enter, on_exit, []⟩,
    current_state := if is_initial then some state else m.current_state }

/-- FSM.add_transition: append a transition to the source state's list;
if the source state was never added the call only logs a warning. -/
def FSM.add_transition [DecidableEq σ] (m : FSM σ ε β)
    (from_state to_state : σ) (cond : ε → Bool) : FSM σ ε β :=
  match assocGet m.states from_state with
  | none => m
  | some st =>
      let st2 := { st with transitions := st.transitions ++ [⟨to_state, cond⟩] }
      { m with states := assocSet m.states from_state st2 }

/-- FSM.run from core/fsm.py.  Returns the new FSM and the events the
exit and enter callbacks posted, in invocation order.  The callbacks are
applied to the pre-transition current state because the source assigns
self._current_state only after both callbacks returned. -/
def FSM.run [DecidableEq σ] (m : FSM σ ε β) (env : ε) : FSM σ ε β × List β :=
  match m.current_state with
  | none => (m, [])
  | some cur =>
      match assocGet m.states cur with
      | none => (m, [])
      | some curSt =>
          match curSt.get_next_state env with
          | none => (m, [])
          | some nextState =>
              match assocGet m.states nextState with
              | none => (m, [])
              | some nextSt =>
                  ({ m with current_state := some nextState },
                   curSt.on_exit (some cur) ++ nextSt.on_enter (some cur))

/-! ### db/model.py: MachineState, and logic/machine.py -/

inductive MachineState
  | STARTUP | AVAILABLE | UNAVAILABLE | BUSY | MAINTENANCE | ERROR | UPDATE
deriving DecidableEq, Repr

/-- The boolean latches read by the transition predicates of
MachineLogic.  planogram_present stands for the value
planogram_logic.is_planogram_set() would return. -/
structure MachineLatches where
  planogram_present : Bool
  dispenser_is_ready : Bool
  is_door_open : Bool
  is_hw_error_indicated : Bool
  is_dispensing_in_progress : Bool
deriving DecidableEq

/-- MachineLogic._check_available_condition. -/
def check_available_condition (l : MachineLatches) : Bool :=
  l.planogram_present && l.dispenser_is_ready && !l.is_door_open &&
    !l.is_hw_error_indicated && !l.is_dispensing_in_progress

/-- MachineLogic._check_unavailable_condition. -/
def check_unavailable_condition (l : MachineLatches) : Bool :=
  !l.planogram_present && l.dispenser_is_ready && !l.is_door_open &&
    !l.is_hw_error_indicated && !l.is_dispensing_in_progress

/-- MachineLogic._check_busy_condition. -/
def check_busy_condition (l : MachineLatches) : Bool :=
  l.is_dispensing_in_progress

/-- MachineLogic._check_maintenance_condition. -/
def check_maintenance_condition (l : MachineLatches) : Bool :=
  l.is_door_open

/-- MachineLogic._check_error_condition. -/
def check_error_condition (l : MachineLatches) : Bool :=
  l.is_hw_error_indicated && !l.is_door_open

/-- MachineLogic._check_update_condition (TODO in the source, always False). -/
def check_update_condition (_ : MachineLatches) : Bool :=
  false

/-- Events MachineLogic posts on the bus from the FSM callbacks.  The
MACHINE_STATE_CHANGED body holds self._fsm.get_current_state() at the
time the enter callback runs. -/
inductive MachineBusEvent
  | STARTUP_COMPLETE
  | MACHINE_STATE_CHANGED (state : Option MachineState)
deriving DecidableEq, Repr

/-- MachineLogic._on_state_changed posts MACHINE_STATE_CHANGED with the
value get_current_state() returns when the callback runs. -/
def on_state_changed (cur : Option MachineState) : List MachineBusEvent :=
  [.MACHINE_STATE_CHANGED cur]

/-- MachineLogic._on_startup_complete posts STARTUP_COMPLETE. -/
def on_startup_complete (_ : Option MachineState) : List MachineBusEvent :=
  [.STARTUP_COMPLETE]

/-- Stands for an on_enter or on_exit argument the source leaves as None. -/
def noMachineCallback (_ : Option MachineState) : List MachineBusEvent :=
  []

/-- MachineLogic._init_fsm: the exact sequence of add_state and
add_transition calls from logic/machine.py lines 64-92.  Note that the
transition from ERROR to UPDATE is guarded by _check_error_condition in
the source. -/
def init_fsm : FSM MachineState MachineLatches MachineBusEvent :=
  (FSM.mk [] none
  |>.add_state .STARTUP "STARTUP" noMachineCallback on_startup_complete true
  |>.add_state .AVAILABLE "AVAILABLE" on_state_changed noMachineCallback false
  |>.add_state .UNAVAILABLE "UNAVAILABLE" on_state_changed noMachineCallback false
  |>.add_state .BUSY "BUSY" on_state_changed noMachineCallback false
  |>.add_state .MAINTENANCE "MAINTENANCE" on_state_changed noMachineCallback false
  |>.add_state .ERROR "ERROR" on_state_changed noMachineCallback false
  |>.add_state .UPDATE "UPDATE" on_state_changed noMachineCallback false
  |>.add_transition .STARTUP .AVAILABLE check_available_condition
  |>.add_transition .STARTUP .UNAVAILABLE check_unavailable_condition
  |>.add_transition .STARTUP .MAINTENANCE check_maintenance_condition
  |>.add_transition .STARTUP .ERROR check_error_condition
  |>.add_transition .AVAILABLE .UNAVAILABLE check_unavailable_condition
  |>.add_transition .AVAILABLE .BUSY check_busy_condition
  |>.add_transition .AVAILABLE .MAINTENANCE check_maintenance_condition
  |>.add_transition .AVAILABLE .ERROR check_error_condition
  |>.add_transition .AVAILABLE .UPDATE check_update_condition
  |>.add_transition .UNAVAILABLE .AVAILABLE check_available_condition
  |>.add_transition .UNAVAILABLE .MAINTENANCE check_maintenance_condition
  |>.add_transition .UNAVAILABLE .ERROR check_error_condition
  |>.add_transition .UNAVAILABLE .UPDATE check_update_condition
  |>.add_transition .BUSY .AVAILABLE check_available_condition
  |>.add_transition .BUSY .ERROR check_error_condition
  |>.add_transition .MAINTENANCE .AVAILABLE check_available_condition
  |>.add_transition .MAINTENANCE .UNAVAILABLE check_unavailable_condition
  |>.add_transition .MAINTENANCE .ERROR check_error_condition
  |>.add_transition .ERROR .AVAILABLE check_available_condition
  |>.add_transition .ERROR .MAINTENANCE check_maintenance_condition
  |>.add_transition .ERROR .UPDATE check_error_condition)

/-- The machine FSM as configured by _init_fsm, with the current state
forced to an arbitrary state s. -/
def machineFsmAt (s : MachineState) : FSM MachineState MachineLatches MachineBusEvent :=
  { init_fsm with current_state := some s }

/-- One FSM evaluation with a fixed latch valuation, keeping the state. -/
def machineRunState (l : MachineLatches)
    (m : FSM MachineState MachineLatches MachineBusEvent) :
    FSM MachineState MachineLatches MachineBusEvent :=
  (m.run l).fst

/-! ### logic/machine.py: event handling

MachineLogic keeps boolean latches and re-evaluates the FSM when an
external event arrives.  HW_DISPENSER_IS_READY sets dispenser_is_ready
in _app_event_handler before the worker runs the FSM;
DOOR_STATE_CHANGED stores the open flag in _on_door_state_changed;
PLANOGRAM_UPDATE_DONE only triggers an evaluation.  The value the
planogram module would report through is_planogram_set() is passed in as
a parameter (the source queries planogram_logic at predicate time). -/

inductive MachineInputEvent
  | HW_DISPENSER_IS_READY
  | DOOR_STATE_CHANGED (opened : Bool)
  | PLANOGRAM_UPDATE_DONE
deriving DecidableEq, Repr

structure MachineLogicState where
  fsm : FSM MachineState MachineLatches MachineBusEvent
  dispenser_is_ready : Bool
  is_door_open : Bool
  is_hw_error_indicated : Bool
  is_dispensing_in_progress : Bool

/-- The latch valuation the transition predicates read. -/
def MachineLogicState.latches (st : MachineLogicState) (planogram_set : Bool) :
    MachineLatches :=
  ⟨planogram_set, st.dispenser_is_ready, st.is_door_open,
   st.is_hw_error_indicated, st.is_dispensing_in_progress⟩

/-- MachineLogic._app_event_handler followed by the corresponding
internal handler (_on_hw_ready, _on_door_state_changed,
_on_planogram_updated), each of which ends in self._fsm.run(). -/
def machineHandleEvent (planogram_set : Bool) (st : MachineLogicState)
    (ev : MachineInputEvent) : MachineLogicState × List MachineBusEvent :=
  match ev with
  | .HW_DISPENSER_IS_READY =>
      let st1 := { st with dispenser_is_ready := true }
      let r := st1.fsm.run (st1.latches planogram_set)
      ({ st1 with fsm := r.fst }, r.snd)
  | .DOOR_STATE_CHANGED opened =>
      let st1 := { st with is_door_open := opened }
      let r := st1.fsm.run (st1.latches planogram_set)
      ({ st1 with fsm := r.fst }, r.snd)
  | .PLANOGRAM_UPDATE_DONE =>
      let r := st.fsm.run (st.latches planogram_set)
      ({ st with fsm := r.fst }, r.snd)

/-- The module state right after _init_fsm with all latches false. -/
def machineInit : MachineLogicState :=
  ⟨init_fsm, false, false, false, false⟩

/-- State and events after HW_DISPENSER_IS_READY with no planogram. -/
def machineAfterHwReady : MachineLogicState × List MachineBusEvent :=
  machineHandleEvent false machineInit .HW_DISPENSER_IS_READY

/-- Then PLANOGRAM_UPDATE_DONE with the planogram now present. -/
def machineAfterPlanogram : MachineLogicState × List MachineBusEvent :=
  machineHandleEvent true machineAfterHwReady.fst .PLANOGRAM_UPDATE_DONE

/-- Then DOOR_STATE_CHANGED with open = true. -/
def machineAfterDoorOpen : MachineLogicState × List MachineBusEvent :=
  machineHandleEvent true machineAfterPlanogram.fst (.DOOR_STATE_CHANGED true)

/-! ### C9: the FSM primitive, one step -/

/-- A two-state FSM used to witness the C9 theorem. -/
def wExitZero (_ : Option Nat) : List Nat := [5]

/-- Enter callback of the witness FSM's second state. -/
def wEnterOne (_ : Option Nat) : List Nat := [7]

/-- An always-true transition predicate for the witness FSM. -/
def wCondTrue (_ : Unit) : Bool := true

/-- First state of the witness FSM. -/
def wStZero : FSMState Nat Unit Nat :=
  ⟨"zero", fun _ => [], wExitZero, [⟨1, wCondTrue⟩]⟩

/-- Second state of the witness FSM. -/
def wStOne : FSMState Nat Unit Nat :=
  ⟨"one", wEnterOne, fun _ => [], []⟩

/-- The witness FSM, currently in state 0. -/
def wFsm : FSM Nat Unit Nat :=
  ⟨[(0, wStZero), (1, wStOne)], some 0⟩

/-! ### core/event_bus.py

A deque with appendleft for posting and pop for consuming is modelled
as a list whose head is the newest element: post_high, post and
post_low cons the event, _dispatch removes from the right.  Handlers
run synchronously inside _dispatch; here a handler is an opaque value
of type eta and a delivery is recorded as the pair (handler, event).
Event types are tau, events nu with a type projection. -/

/-- MAX_NUM_HIGH_PRIO_EVENTS_PER_TIME from core/event_bus.py. -/
def MAX_NUM_HIGH_PRIO_EVENTS_PER_TIME : Nat := 15

/-- MAX_NUM_NORMAL_PRIO_EVENTS_PER_TIME from core/event_bus.py. -/
def MAX_NUM_NORMAL_PRIO_EVENTS_PER_TIME : Nat := 10

/-- MAX_NUM_LOW_PRIO_EVENTS_PER_TIME from core/event_bus.py. -/
def MAX_NUM_LOW_PRIO_EVENTS_PER_TIME : Nat := 5

/-- deque.pop: remove and return the rightmost (oldest) element. -/
def popRight : List α → Option (α × List α)
  | [] => none
  | [a] => some (a, [])
  | a :: b :: rest =>
      match popRight (b :: rest) with
      | none => none
      | some (x, q) => some (x, a :: q)

/-- EventBus.subscribe: append the handler to the list registered for
the event type, creating the list on first subscription. -/
def subscribeHandler [DecidableEq τ] (subs : List (τ × List η)) (evtype : τ)
    (handler : η) : List (τ × List η) :=
  match assocGet subs evtype with
  | none => assocSet subs evtype [handler]
  | some hs => assocSet subs evtype (hs ++ [handler])

/-- EventBus.post_high, post and post_low all do queue.appendleft. -/
def postEvent (q : List ν) (e : ν) : List ν :=
  e :: q

/-- Posting a whole list of events in order onto a queue. -/
def postAll (q : List ν) (evs : List ν) : List ν :=
  evs.foldl postEvent q

/-- One priority level of EventBus._dispatch for the high and normal
queues: up to n iterations, each popping the oldest event and invoking
every subscribed handler on it; an empty queue breaks the loop.
Returns the deliveries in invocation order and the remaining queue. -/
def drainDeliver [DecidableEq τ] (etype : ν → τ) (subs : List (τ × List η)) :
    Nat → List ν → List (η × ν) × List ν
  | 0, q => ([], q)
  | Nat.succ n, q =>
      match popRight q with
      | none => ([], q)
      | some (e, q2) =>
          let here : List (η × ν) :=
            match assocGet subs (etype e) with
            | none => []
            | some hs => hs.map (fun h => (h, e))
          let rest := drainDeliver etype subs n q2
          (here ++ rest.fst, rest.snd)

/-- The low-priority loop of EventBus._dispatch: identical except that
an empty queue does not break, the loop just runs out of iterations. -/
def drainDeliverLow [DecidableEq τ] (etype : ν → τ) (subs : List (τ × List η)) :
    Nat → List ν → List (η × ν) × List ν
  | 0, q => ([], q)
  | Nat.succ n, q =>
      match popRight q with
      | none => drainDeliverLow etype subs n q
      | some (e, q2) =>
          let here : List (η × ν) :=
            match assocGet subs (etype e) with
            | none => []
            | some hs => hs.map (fun h => (h, e))
          let rest := drainDeliverLow etype subs n q2
          (here ++ rest.fst, rest.snd)

/-- EventBus._dispatch: drain up to 15 high-priority, then up to 10
normal-priority, then up to 5 low-priority events.  Returns everything
delivered, in order, and the three remaining queues. -/
def dispatch [DecidableEq τ] (etype : ν → τ) (subs : List (τ × List η))
    (highq normq lowq : List ν) :
    List (η × ν) × (List ν × List ν × List ν) :=
  let h := drainDeliver etype subs MAX_NUM_HIGH_PRIO_EVENTS_PER_TIME highq
  let n := drainDeliver etype subs MAX_NUM_NORMAL_PRIO_EVENTS_PER_TIME normq
  let l := drainDeliverLow etype subs MAX_NUM_LOW_PRIO_EVENTS_PER_TIME lowq
  (h.fst ++ n.fst ++ l.fst, (h.snd, n.snd, l.snd))

/-- Specification side of C7: delivering a list of events, oldest
first, to every handler subscribed to each event's type. -/
def deliverAll [DecidableEq τ] (etype : ν → τ) (subs : List (τ × List η))
    (evs : List ν) : List (η × ν) :=
  evs.flatMap (fun e =>
    match assocGet subs (etype e) with
    | none => []
    | some hs => hs.map (fun h => (h, e)))

/-! ### db/model.py: the persisted entities the claims use -/

inductive CartStatus
  | CREATED | PRERESERVATION | RESERVED | CHECKOUT | DISPENSING | COMPLETE
deriving DecidableEq, Repr

inductive CheckoutMethod
  | UNDEFINED | MOBILE | LOCAL | PICKUP
deriving DecidableEq, Repr

inductive CartType
  | UNDEFINED | LOCAL | REMOTE
deriving DecidableEq, Repr

inductive ReservationCompletionStatus
  | EXPIRED | DISPENSED
deriving DecidableEq, Repr

structure Cart where
  obj_id : Nat
  display_id : Nat
  transaction_id : String
  cart_type : CartType
  order_info : String
  status : CartStatus
  checkout_method : CheckoutMethod
  locked_at : Int
deriving DecidableEq, Repr

structure CartItem where
  cart_id : Nat
  variant_id : Nat
  amount : Int
deriving DecidableEq, Repr

structure Reservation where
  id : Nat
  cart_id : Nat
  variant_id : Nat
  unit_id : Nat
  location : Nat
  quantity : Int
deriving DecidableEq, Repr

structure InventoryItem where
  unit_id : Nat
  tray_number : Nat
  location : Nat
  variant_id : Nat
  width : Int
  quantity : Int
  depth : Int
deriving DecidableEq, Repr

structure OrderHistoryRecord where
  obj_id : Nat
  transaction_id : String
  order_info : String
  completion_status : ReservationCompletionStatus
  created_at : Int
deriving DecidableEq, Repr

/-- The abnormal outcomes of the repository methods and of the Python
code built on them.  typeError stands for the built-in TypeError (for
the repository: indexing a plain tuple row with a string key, since
Database.start never installs a row_factory on the sqlite3 connection);
attributeError for the built-in AttributeError; dbError for
utils.DbError, which each Database method raises out of its
`except sqlite3.DatabaseError` clause. -/
inductive PyError
  | typeError
  | attributeError
  | dbError
deriving DecidableEq, Repr

/-! ### db/database.py as written

Each table is a list of rows in insertion order, timestamps are
integers, and each method is modelled with the behaviour its body
actually has:

* `sqlite3.connect` is called without ever setting a row_factory, so
  every fetched row is a plain tuple; a method that indexes a row with
  a string key (`row['id']` in get_cart, get_cart_by_transaction and
  get_carts) raises TypeError as soon as a matching row exists, and
  TypeError, not being a `sqlite3.DatabaseError`, escapes the method's
  except clause.  With no matching row these methods still return
  None or the empty list.
* A statement whose SQL cannot be prepared or bound (add_cart,
  update_cart, add_cart_item, add_reservation, add_order_history_record
  and the cart branch of get_reservations) raises
  `sqlite3.OperationalError`/`ProgrammingError`, both subclasses of
  `sqlite3.DatabaseError`, so the method raises utils.DbError on every
  call and writes nothing.
* add_or_update_reservation holds `self._lock` (a non-reentrant
  `threading.Lock`) while calling add_reservation or
  update_reservation, each of which opens with `with self._lock`; both
  branches therefore block forever.  The result type Option Db records
  this: `none` means the call never returns.
* The remaining methods (correct SQL, tuple rows consumed by
  `namedtuple._make` or not consumed at all) behave as their list
  operations. -/

structure Db where
  carts : List Cart
  cart_contents : List CartItem
  reservations : List Reservation
  inventory : List InventoryItem
  order_history : List OrderHistoryRecord
  next_cart_id : Nat
  next_reservation_id : Nat
  next_order_history_id : Nat
deriving DecidableEq, Repr

/-- Database.get_cart: `SELECT * FROM cart WHERE id=?` is valid, and a
missing row returns None; but a found row is a tuple and
`row['id']` raises TypeError, which escapes the except clause. -/
def Db.get_cart (db : Db) (cart_id : Nat) : Except PyError (Option Cart) :=
  match db.carts.find? (fun c => c.obj_id == cart_id) with
  | none => .ok none
  | some _ => .error .typeError

/-- Database.get_cart_by_transaction: same shape as get_cart, None when
no row matches the transaction id and TypeError on `row['id']` when one
does. -/
def Db.get_cart_by_transaction (db : Db) (transaction_id : String) :
    Except PyError (Option Cart) :=
  match db.carts.find? (fun c => c.transaction_id == transaction_id) with
  | none => .ok none
  | some _ => .error .typeError

/-- Database.add_cart: the INSERT lists seven columns but only six
placeholders (and the bound tuple omits transaction_id), so sqlite
rejects the statement, the except clause raises utils.DbError on every
call and no row is ever inserted. -/
def Db.add_cart (db : Db) (cart : Cart) : Except PyError (Nat × Db) :=
  .error .dbError

/-- Database.update_cart: the UPDATE has eight placeholders but only
seven bound parameters (cart.obj_id is never bound), so binding fails,
utils.DbError is raised on every call and no row is ever changed. -/
def Db.update_cart (db : Db) (cart : Cart) : Except PyError Db :=
  .error .dbError

/-- Database.remove_cart. -/
def Db.remove_cart (db : Db) (cart_id : Nat) : Db :=
  { db with carts := db.carts.filter (fun c => !(c.obj_id == cart_id)) }

/-- Database.get_carts (without the order_info filter): the SELECT is
valid and an empty table yields the empty list, but the first fetched
row raises TypeError on `row['id']`. -/
def Db.get_carts (db : Db) : Except PyError (List Cart) :=
  match db.carts with
  | [] => .ok []
  | _ :: _ => .error .typeError

/-- Database.get_cart_items: valid SQL and rows consumed with
CartItem._make, which accepts tuple rows, so this method works. -/
def Db.get_cart_items (db : Db) (cart_id : Nat) : List CartItem :=
  db.cart_contents.filter (fun ci => ci.cart_id == cart_id)

/-- Database.add_cart_item: the INSERT names the column card_id while
every other cart_contents statement uses cart_id, so under the schema
the rest of the module runs against the statement fails, utils.DbError
is raised on every call and nothing is inserted. -/
def Db.add_cart_item (db : Db) (ci : CartItem) : Except PyError Db :=
  .error .dbError

/-- Database.update_cart_item: set amount where cart and variant match. -/
def Db.update_cart_item (db : Db) (ci : CartItem) : Db :=
  { db with cart_contents := db.cart_contents.map (fun r =>
      if r.cart_id == ci.cart_id && r.variant_id == ci.variant_id then
        { r with amount := ci.amount }
      else r) }

/-- Database.remove_cart_item. -/
def Db.remove_cart_item (db : Db) (ci : CartItem) : Db :=
  { db with cart_contents := db.cart_contents.filter (fun r =>
      !(r.cart_id == ci.cart_id && r.variant_id == ci.variant_id)) }

/-- Database.get_inventory_items_by_variant, in storage order. -/
def Db.get_inventory_items_by_variant (db : Db) (variant_id : Nat) : List InventoryItem :=
  db.inventory.filter (fun it => it.variant_id == variant_id)

/-- Database.get_inventory_items_by_unit. -/
def Db.get_inventory_items_by_unit (db : Db) (unit_id : Nat) : List InventoryItem :=
  db.inventory.filter (fun it => it.unit_id == unit_id)

/-- Database.get_reservations with cart_id = 0: all reservations of the
variant. -/
def Db.get_reservations (db : Db) (variant_id : Nat) : List Reservation :=
  db.reservations.filter (fun r => r.variant_id == variant_id)

/-- Database.get_reservations with a nonzero cart_id: this branch
filters on the columns card_id and variantId_id, neither of which the
reservation table has (every other statement uses cart_id and
variant_id), so the query fails and utils.DbError is raised on every
call. -/
def Db.get_reservations_of_cart (db : Db) (variant_id cart_id : Nat) :
    Except PyError (List Reservation) :=
  .error .dbError

/-- Database.add_reservation: the INSERT text stops inside the column
list (no closing parenthesis and no VALUES clause), so the statement
cannot be prepared, utils.DbError is raised on every call and nothing
is inserted. -/
def Db.add_reservation (db : Db) (r : Reservation) : Except PyError (Nat × Db) :=
  .error .dbError

/-- Database.update_reservation with new_location = 0: rewrite location
and quantity of the row whose id matches. -/
def Db.update_reservation (db : Db) (r : Reservation) : Db :=
  { db with reservations := db.reservations.map (fun row =>
      if row.id == r.id then { row with location := r.location, quantity := r.quantity }
      else row) }

/-- Database.add_or_update_reservation: inside `with self._lock` it
runs a valid SELECT for a reservation of the same cart, unit, location
and variant (integer tuple indexing, so the lookup itself works), then
calls self.add_reservation when none is found and self.update_reservation
otherwise.  Both callees open with `with self._lock` on the same
non-reentrant threading.Lock the caller still holds, so either branch
blocks forever and the call never returns (none). -/
def Db.add_or_update_reservation (db : Db) (r : Reservation) : Option Db :=
  match db.reservations.find? (fun row =>
      row.cart_id == r.cart_id && row.unit_id == r.unit_id &&
      row.location == r.location && row.variant_id == r.variant_id) with
  | none => none
  | some _ => none

/-- Database.remove_reservation. -/
def Db.remove_reservation (db : Db) (r_id : Nat) : Db :=
  { db with reservations := db.reservations.filter (fun r => !(r.id == r_id)) }

/-- Database.add_order_history_record: like add_reservation the INSERT
text stops inside the column list, so the statement cannot be prepared,
utils.DbError is raised on every call and nothing is inserted. -/
def Db.add_order_history_record (db : Db) (rec : OrderHistoryRecord) :
    Except PyError (Nat × Db) :=
  .error .dbError

/-- Database.remove_order_history_record. -/
def Db.remove_order_history_record (db : Db) (rec_id : Nat) : Db :=
  { db with order_history := db.order_history.filter (fun r => !(r.obj_id == rec_id)) }

/-! ### logic/cart.py -/

inductive CartOperationResult
  | OK | NOK | PENDING | ERROR
deriving DecidableEq, Repr

/-- The bus events CartLogic posts in the code paths modelled here. -/
inductive CartBusEvent
  | RESERVATION_COMPLETED (transaction_id : String)
      (status : ReservationCompletionStatus)
  | BEGIN_TRANSACTION_RESPONSE (cart_id : Nat) (success : Bool)
deriving DecidableEq, Repr

/-- ExpirationItem = namedtuple(obj_id, exp_at); exp_at is a monotonic
deadline. -/
structure ExpirationItem where
  obj_id : Nat
  exp_at : Int
deriving DecidableEq, Repr

/-- The timeout configuration CartLogic.start computes; the field
values default to 900, 1200, 24*60 and 7*24*60. -/
structure CartConfig where
  expiration_seconds : Int
  prereservation_seconds : Int
  reservation_minutes : Int
  order_history_minutes : Int
deriving DecidableEq, Repr

/-- The default timeout values from CartLogic.__init__. -/
def defaultCartConfig : CartConfig :=
  ⟨900, 1200, 24 * 60, 7 * 24 * 60⟩

/-- EXP_TM_TICKS_IN_MINUTE = 60 // EXP_LIST_CHECK_PERIOD_SEC = 12. -/
def EXP_TM_TICKS_IN_MINUTE : Nat := 12

/-- The mutable state of CartLogic used by the modelled operations. -/
structure CartLogicState where
  db : Db
  reservation_exp_list : List ExpirationItem
  exp_list : List ExpirationItem
  order_hist_exp_list : List ExpirationItem
  exp_tm_tick_cnt : Nat
deriving DecidableEq, Repr

/-- CartLogic._cancel_cart_expiration_tm: delete the first list item
with the given cart id. -/
def cancel_cart_expiration_tm (cart_id : Nat) :
    List ExpirationItem → List ExpirationItem
  | [] => []
  | it :: rest =>
      if it.obj_id == cart_id then rest
      else it :: cancel_cart_expiration_tm cart_id rest

/-- CartLogic._set_prereservation_timer. -/
def set_prereservation_timer (cfg : CartConfig) (nowMono : Int) (restart : Bool)
    (cart_id : Nat) (l : List ExpirationItem) : List ExpirationItem :=
  let l1 := if restart then cancel_cart_expiration_tm cart_id l else l
  l1 ++ [⟨cart_id, nowMono + cfg.prereservation_seconds⟩]

/-- Sum of the quantity fields of inventory rows. -/
def invQuantitySum (items : List InventoryItem) : Int :=
  items.foldl (fun a it => a + it.quantity) 0

/-- Sum of the quantity fields of reservation rows. -/
def resQuantitySum (rs : List Reservation) : Int :=
  rs.foldl (fun a r => a + r.quantity) 0

/-- The already_reserved accumulation in CartLogic._do_reservation: the
quantities of the fetched reservations whose unit and location match
the inventory row. -/
def alreadyReservedAt (rs : List Reservation) (unit_id location : Nat) : Int :=
  resQuantitySum (rs.filter (fun r => r.unit_id == unit_id && r.location == location))

/-- The slot walk of CartLogic._do_reservation.  reservations is the
list fetched before the loop (the source does not refetch it after a
write).  A slot whose free quantity covers the remaining amount gets a
reservation for the whole remainder and the walk stops; a slot that is
exactly full is skipped; otherwise the slot's free quantity is consumed
and the walk continues with the rest.  Every write goes through
add_or_update_reservation, which never returns, so the walk completes
(some) only when every visited slot is skipped; none means the thread
is blocked forever inside the first write. -/
def doReservationWalk (cart_id var_id : Nat) (reservations : List Reservation) :
    List InventoryItem → Int → Db → Option Db
  | [], _, db => some db
  | item :: rest, amount, db =>
      let already := alreadyReservedAt reservations item.unit_id item.location
      if item.quantity - already ≥ amount then
        db.add_or_update_reservation ⟨0, cart_id, var_id, item.unit_id, item.location, amount⟩
      else if item.quantity == already then
        doReservationWalk cart_id var_id reservations rest amount db
      else
        match db.add_or_update_reservation
            ⟨0, cart_id, var_id, item.unit_id, item.location, item.quantity - already⟩ with
        | none => none
        | some db2 =>
            doReservationWalk cart_id var_id reservations rest
              (amount - (item.quantity - already)) db2

/-- CartLogic._do_reservation from logic/cart.py lines 315-346.  The
reads (get_inventory_items_by_variant and the all-carts branch of
get_reservations) have correct SQL and namedtuple rows, so they work;
none propagates the walk's blocked write. -/
def do_reservation (db : Db) (cart_id var_id : Nat) (amount : Int) :
    Option (Bool × Db) :=
  let inv_items := db.get_inventory_items_by_variant var_id
  let quantity := invQuantitySum inv_items
  let reservations := db.get_reservations var_id
  let reserved := resQuantitySum reservations
  if quantity > 0 ∧ quantity - reserved ≥ amount then
    match doReservationWalk cart_id var_id reservations inv_items amount db with
    | none => none
    | some db2 => some (true, db2)
  else
    some (false, db)

/-- The loop of CartLogic._cancel_reservation over the cart's
reservations of the variant: remove a reservation that matches the
amount exactly and stop; remove a smaller one and continue with the
remainder; decrement a bigger one and stop. -/
def cancelReservationWalk : List Reservation → Int → Db → Db
  | [], _, db => db
  | r :: rest, amount, db =>
      if r.quantity == amount then
        db.remove_reservation r.id
      else if r.quantity < amount then
        cancelReservationWalk rest (amount - r.quantity) (db.remove_reservation r.id)
      else
        db.update_reservation { r with quantity := r.quantity - amount }

/-- CartLogic._cancel_reservation: its first statement fetches the
cart's reservations through the cart branch of Database.get_reservations,
which always raises utils.DbError, so the walk below never runs. -/
def cancel_reservation (db : Db) (cart_id var_id : Nat) (amount : Int) :
    Except PyError Db :=
  match db.get_reservations_of_cart var_id cart_id with
  | .error e => .error e
  | .ok rs => .ok (cancelReservationWalk rs amount db)

/-- Accumulator of the loop over cart_contents in CartLogic.update. -/
structure UpdateLoopState where
  db : Db
  result : CartOperationResult × String
  is_processed : Bool
deriving Repr

/-- How one iteration of the loop over cart_contents in CartLogic.update
ends: the loop continues with an updated accumulator, or a utils.DbError
escaped to update's except clause (carrying the state at that point), or
the thread is blocked forever inside add_or_update_reservation. -/
inductive UpdateStep
  | cont (acc : UpdateLoopState)
  | internalError (db : Db)
  | hang
deriving Repr

/-- One iteration of the loop over cart_contents in CartLogic.update;
only items of the requested variant are acted on.  The positive branch
runs _do_reservation (whose writes block forever); on success
update_cart_item works.  The negative branch calls _cancel_reservation,
whose get_reservations fetch raises utils.DbError, caught by update's
except clause. -/
def updateLoopStep (cart_obj_id var_id : Nat) (amount : Int)
    (acc : UpdateLoopState) (item : CartItem) : UpdateStep :=
  if item.variant_id == var_id then
    if amount > 0 then
      match do_reservation acc.db cart_obj_id var_id amount with
      | none => .hang
      | some (true, db2) =>
          let db3 := db2.update_cart_item { item with amount := item.amount + amount }
          .cont { acc with db := db3, is_processed := true }
      | some (false, db2) =>
          .cont { acc with db := db2, result := (.NOK, ""), is_processed := true }
    else
      let abs_amount := |amount|
      if item.amount ≥ abs_amount then
        match cancel_reservation acc.db cart_obj_id var_id abs_amount with
        | .error _ => .internalError acc.db
        | .ok db2 =>
            let db3 :=
              if item.amount - abs_amount > 0 then
                db2.update_cart_item { item with amount := item.amount - abs_amount }
              else
                db2.remove_cart_item item
            .cont { acc with db := db3, is_processed := true }
      else
        .cont { acc with result := (.ERROR, "Requested amount is more than reserved"),
                         is_processed := true }
  else
    .cont acc

/-- The loop over cart_contents in CartLogic.update, stopping early
when an iteration raises or blocks. -/
def updateLoop (cart_obj_id var_id : Nat) (amount : Int) :
    List CartItem → UpdateLoopState → UpdateStep
  | [], acc => .cont acc
  | item :: rest, acc =>
      match updateLoopStep cart_obj_id var_id amount acc item with
      | .cont acc2 => updateLoop cart_obj_id var_id amount rest acc2
      | .internalError db => .internalError db
      | .hang => .hang

/-- How a call of CartLogic.update ends: a returned (result, message)
pair with the state left behind, an exception escaping the method (only
utils.DbError is caught, so a TypeError raised by the repository
propagates to the caller), or a thread blocked forever inside a
repository write. -/
inductive UpdateResult
  | returned (result : CartOperationResult × String) (db : Db)
      (exp_list : List ExpirationItem)
  | raised (e : PyError) (db : Db) (exp_list : List ExpirationItem)
  | hang
deriving Repr

/-- The tail of updateWithCart once the loop and the not-yet-in-cart
branch produced a final accumulator: the prereservation timer restart
on a successful update of an existing PRERESERVATION cart, then the
return. -/
def updateFinish (cfg : CartConfig) (nowMono : Int)
    (exp_list : List ExpirationItem) (cart : Cart) (is_new_cart : Bool)
    (acc : UpdateLoopState) : UpdateResult :=
  let exp2 :=
    if !is_new_cart && cart.status == .PRERESERVATION
        && acc.result.fst == .OK then
      set_prereservation_timer cfg nowMono true cart.obj_id exp_list
    else exp_list
  .returned acc.result acc.db exp2

/-- The part of CartLogic.update after the cart was fetched or created:
the loop over the cart's items and the not-yet-in-cart branch.  In the
latter, a successful reservation is followed by add_cart_item, which
always raises utils.DbError, caught by update's except clause. -/
def updateWithCart (cfg : CartConfig) (nowMono : Int) (db : Db)
    (exp_list : List ExpirationItem) (cart : Cart) (is_new_cart : Bool)
    (var_id : Nat) (amount : Int) : UpdateResult :=
  let cart_contents := db.get_cart_items cart.obj_id
  let acc0 : UpdateLoopState := ⟨db, (.OK, ""), false⟩
  match updateLoop cart.obj_id var_id amount cart_contents acc0 with
  | .hang => .hang
  | .internalError db2 => .returned (.ERROR, "Internal error") db2 exp_list
  | .cont acc =>
      if !acc.is_processed then
        if amount > 0 then
          match do_reservation acc.db cart.obj_id var_id amount with
          | none => .hang
          | some (true, db2) =>
              match db2.add_cart_item ⟨cart.obj_id, var_id, amount⟩ with
              | .error _ => .returned (.ERROR, "Internal error") db2 exp_list
              | .ok db3 => updateFinish cfg nowMono exp_list cart is_new_cart
                  { acc with db := db3 }
          | some (false, db2) =>
              updateFinish cfg nowMono exp_list cart is_new_cart
                { acc with db := db2, result := (.NOK, "") }
        else
          updateFinish cfg nowMono exp_list cart is_new_cart
            { acc with result := (.ERROR, "Cannot remove not yet added items") }
      else
        updateFinish cfg nowMono exp_list cart is_new_cart acc

/-- CartLogic.update from logic/cart.py lines 364-431.  A zero amount
is rejected with no repository access.  The cart fetch raises TypeError
as soon as a cart with the transaction id exists, and TypeError is not
caught (only utils.DbError is), so it escapes the method.  When no cart
exists, add_cart is called and always raises utils.DbError, so the
except clause returns (ERROR, "Internal error") with nothing written;
the cart-created continuation below that call is dead code and is
embedded as written. -/
def CartLogic_update (cfg : CartConfig) (nowMono : Int) (db : Db)
    (exp_list : List ExpirationItem) (transaction_id : String)
    (display_id : Nat) (cart_type : CartType) (var_id : Nat) (amount : Int) :
    UpdateResult :=
  if amount == 0 then
    .returned (.ERROR, "Amount cannot be 0") db exp_list
  else
    match db.get_cart_by_transaction transaction_id with
    | .error e => .raised e db exp_list
    | .ok (some cart) =>
        updateWithCart cfg nowMono db exp_list cart false var_id amount
    | .ok none =>
        let status : CartStatus := if cart_type == .LOCAL then .CREATED else .PRERESERVATION
        let cart0 : Cart := ⟨0, display_id, transaction_id, cart_type, "", status, .UNDEFINED, 0⟩
        match db.add_cart cart0 with
        | .error _ => .returned (.ERROR, "Internal error") db exp_list
        | .ok r =>
            let cart := { cart0 with obj_id := r.fst }
            let exp2 :=
              if cart.status == .PRERESERVATION then
                set_prereservation_timer cfg nowMono false cart.obj_id exp_list
              else exp_list
            updateWithCart cfg nowMono r.snd exp2 cart true var_id amount

/-- The outcome of CloudClient.invoke_api_post_with_response for the
transaction endpoint: failure covers every CloudApi exception the
source catches; a response carries the transactionId field, which may
be absent (the source would then raise KeyError, also caught). -/
inductive CloudPostOutcome
  | failure
  | response (transactionId : Option String)
deriving DecidableEq, Repr

/-- What CartLogic._begin_transaction leaves behind: the state, the
posted events in order, and the exception escaping the method if one
does (TypeError is caught by none of its except clauses and kills the
cart worker thread, which catches only KeyError). -/
structure BeginTransactionOutcome where
  db : Db
  exp_list : List ExpirationItem
  events : List CartBusEvent
  raised : Option PyError
deriving DecidableEq, Repr

/-- CartLogic._begin_transaction from logic/cart.py lines 713-759.
get_cart raises TypeError whenever the cart row exists; the finally
clause sees is_ok still False and posts BEGIN_TRANSACTION_RESPONSE with
success False before the exception escapes.  A missing cart posts that
response explicitly and returns, whereupon the finally clause posts it
a second time.  The branch in which get_cart returned a cart is
unreachable but embedded as written: there, update_cart always raises
utils.DbError (caught by the except clause, leaving is_ok False), so
even that path would post the failure response and persist nothing;
is_ok = True, the only path on which finally stays silent, is never
reached. -/
def begin_transaction (cfg : CartConfig) (nowMono nowWall : Int) (db : Db)
    (exp_list : List ExpirationItem) (cart_id : Nat) (cloud : CloudPostOutcome) :
    BeginTransactionOutcome :=
  match db.get_cart cart_id with
  | .error e =>
      ⟨db, exp_list, [.BEGIN_TRANSACTION_RESPONSE cart_id false], some e⟩
  | .ok none =>
      ⟨db, exp_list,
       [.BEGIN_TRANSACTION_RESPONSE cart_id false,
        .BEGIN_TRANSACTION_RESPONSE cart_id false], none⟩
  | .ok (some cart) =>
      if (db.get_cart_items cart_id).isEmpty then
        ⟨db, exp_list,
         [.BEGIN_TRANSACTION_RESPONSE cart_id false,
          .BEGIN_TRANSACTION_RESPONSE cart_id false], none⟩
      else
        match cloud with
        | .failure =>
            ⟨db, exp_list, [.BEGIN_TRANSACTION_RESPONSE cart_id false], none⟩
        | .response none =>
            ⟨db, exp_list, [.BEGIN_TRANSACTION_RESPONSE cart_id false], none⟩
        | .response (some tid) =>
            let cart2 := { cart with transaction_id := tid, status := .CHECKOUT,
                                     locked_at := nowWall }
            match db.update_cart cart2 with
            | .error _ =>
                ⟨db, exp_list, [.BEGIN_TRANSACTION_RESPONSE cart_id false], none⟩
            | .ok db2 =>
                ⟨db2, exp_list ++ [⟨cart_id, nowMono + cfg.expiration_seconds⟩],
                 [], none⟩

/-! ### CartLogic._exp_list_process (logic/cart.py lines 598-658)

The sweep reads time.monotonic() afresh for each comparison; the model
takes one monotonic instant nowMono for the whole tick (and nowWall for
time.time()), which is how the claim reads the code. -/

/-- An aborted sweep loop: the repository raised mid-iteration, the
collected items_to_erase are discarded (erasure only runs after a
completed loop), and the events posted and the state changed before the
raise stay.  error distinguishes dbError, swallowed by the except
clause of _exp_list_process, from typeError, which escapes the method
and kills the timer thread. -/
structure SweepAbort where
  db : Db
  events : List CartBusEvent
  error : PyError
deriving Repr

/-- Result of the first part of the sweep (short timers). -/
structure ShortSweepResult where
  db : Db
  events : List CartBusEvent
  items_to_erase : List ExpirationItem
deriving Repr

/-- First part of the sweep: for every item with nowMono > exp_at, the
cart is looked up.  get_cart raises TypeError whenever the cart row
exists, aborting the whole sweep, and returns None otherwise, so the
found-cart branch (post RESERVATION_COMPLETED for a PRERESERVATION
cart, then remove it) is dead code, embedded as written; a reachable
iteration only logs a warning and collects the item for erasure. -/
def expSweepShort (nowMono : Int) :
    List ExpirationItem → Db → Except SweepAbort ShortSweepResult
  | [], db => .ok ⟨db, [], []⟩
  | it :: rest, db =>
      if nowMono > it.exp_at then
        match db.get_cart it.obj_id with
        | .error e => .error ⟨db, [], e⟩
        | .ok none =>
            match expSweepShort nowMono rest db with
            | .error a => .error a
            | .ok r => .ok { r with items_to_erase := it :: r.items_to_erase }
        | .ok (some cart) =>
            let evs :=
              if cart.status == .PRERESERVATION then
                [CartBusEvent.RESERVATION_COMPLETED cart.transaction_id .EXPIRED]
              else []
            match expSweepShort nowMono rest (db.remove_cart cart.obj_id) with
            | .error a => .error { a with events := evs ++ a.events }
            | .ok r => .ok ⟨r.db, evs ++ r.events, it :: r.items_to_erase⟩
      else
        expSweepShort nowMono rest db

/-- Result of the second part of the sweep (reservation timers). -/
structure ReservationSweepResult where
  db : Db
  events : List CartBusEvent
  new_history_items : List ExpirationItem
  items_to_erase : List ExpirationItem
deriving Repr

/-- Second part of the sweep: for every expired item the cart is looked
up, with the same dichotomy as the short sweep (TypeError aborts the
sweep whenever the cart row exists, None otherwise).  The found-cart
branch is again dead code: were it reached, it would post
RESERVATION_COMPLETED and then call add_order_history_record, which
always raises utils.DbError, aborting the sweep with the event already
posted; the retention scheduling and cart removal after it never run. -/
def expSweepReservation (cfg : CartConfig) (nowMono nowWall : Int) :
    List ExpirationItem → Db → Except SweepAbort ReservationSweepResult
  | [], db => .ok ⟨db, [], [], []⟩
  | it :: rest, db =>
      if nowMono > it.exp_at then
        match db.get_cart it.obj_id with
        | .error e => .error ⟨db, [], e⟩
        | .ok none =>
            match expSweepReservation cfg nowMono nowWall rest db with
            | .error a => .error a
            | .ok r => .ok { r with items_to_erase := it :: r.items_to_erase }
        | .ok (some cart) =>
            let rec_row : OrderHistoryRecord :=
              ⟨0, cart.transaction_id, cart.order_info, .EXPIRED, nowWall⟩
            match db.add_order_history_record rec_row with
            | .error e =>
                .error ⟨db,
                  [CartBusEvent.RESERVATION_COMPLETED cart.transaction_id .EXPIRED], e⟩
            | .ok added =>
                let db2 := added.snd.remove_cart cart.obj_id
                match expSweepReservation cfg nowMono nowWall rest db2 with
                | .error a =>
                    .error { a with events :=
                      CartBusEvent.RESERVATION_COMPLETED cart.transaction_id .EXPIRED
                        :: a.events }
                | .ok r =>
                    .ok ⟨r.db,
                     CartBusEvent.RESERVATION_COMPLETED cart.transaction_id .EXPIRED
                       :: r.events,
                     ⟨added.fst, nowMono + cfg.order_history_minutes * 60⟩
                       :: r.new_history_items,
                     it :: r.items_to_erase⟩
      else
        expSweepReservation cfg nowMono nowWall rest db

/-- Third part of the sweep: delete the order history records of the
expired retention items. -/
def expSweepOrderHistory (nowMono : Int) :
    List ExpirationItem → Db → Db × List ExpirationItem
  | [], db => (db, [])
  | it :: rest, db =>
      if nowMono > it.exp_at then
        let r := expSweepOrderHistory nowMono rest (db.remove_order_history_record it.obj_id)
        (r.fst, it :: r.snd)
      else
        expSweepOrderHistory nowMono rest db

/-- The erase loop: list.remove(item) for each collected item, removing
the first occurrence. -/
def eraseAll [DecidableEq α] (l : List α) (items : List α) : List α :=
  items.foldl (fun acc it => acc.erase it) l

/-- CartLogic._exp_list_process: sweep the short list every tick, and
the reservation and order history lists once the tick counter reaches
EXP_TM_TICKS_IN_MINUTE (the order history sweep also sees the items the
reservation sweep just appended).  The whole body sits in a try whose
except clause swallows utils.DbError and whose finally clause re-arms
the timer either way; an abort leaves the lists whose erasure loops had
not yet run unchanged (the short-list erasure and the tick counter
reset have already happened when the reservation sweep aborts).  The
third component is the exception escaping the method: some only for a
TypeError, which then kills the timer thread. -/
def exp_list_process (cfg : CartConfig) (nowMono nowWall : Int)
    (st : CartLogicState) :
    CartLogicState × List CartBusEvent × Option PyError :=
  match expSweepShort nowMono st.exp_list st.db with
  | .error a =>
      ({ st with db := a.db }, a.events,
       if a.error = .dbError then none else some a.error)
  | .ok s1 =>
      let expList2 := eraseAll st.exp_list s1.items_to_erase
      let cnt := st.exp_tm_tick_cnt + 1
      if cnt ≥ EXP_TM_TICKS_IN_MINUTE then
        match expSweepReservation cfg nowMono nowWall st.reservation_exp_list s1.db with
        | .error a =>
            ({ st with db := a.db, exp_list := expList2, exp_tm_tick_cnt := 0 },
             s1.events ++ a.events,
             if a.error = .dbError then none else some a.error)
        | .ok s2 =>
            let resList2 := eraseAll st.reservation_exp_list s2.items_to_erase
            let histList := st.order_hist_exp_list ++ s2.new_history_items
            let s3 := expSweepOrderHistory nowMono histList s2.db
            let histList2 := eraseAll histList s3.snd
            (⟨s3.fst, resList2, expList2, histList2, 0⟩,
             s1.events ++ s2.events, none)
      else
        ({ st with db := s1.db, exp_list := expList2, exp_tm_tick_cnt := cnt },
         s1.events, none)

/-! ### logic/planogram.py -/

/-- MAX_UNITS from db/model.py. -/
def MAX_UNITS : Nat := 1

inductive PlanogramStatusReason
  | NO_REASON | RESERVED_PRODUCT_ABSENT | RESERVED_PRODUCT_OCCUPIES_LESS_SLOTS
deriving DecidableEq, Repr

/-- One slot of the in-memory layout: the width, depth, variant_id dict
built in start() and in _planogram_updated_event_handler. -/
structure SlotInfo where
  width : Int
  depth : Int
  variant_id : Nat
deriving DecidableEq, Repr

/-- A tray: the dict location to slot info. -/
abbrev TrayMap := List (Nat × SlotInfo)

/-- A unit layout: the dict tray_number to tray. -/
abbrev UnitTrays := List (Nat × TrayMap)

/-- The bus events the planogram notification handler can post. -/
inductive PlanogramBusEvent
  | NEW_PLANOGRAM_AVAILABLE (status : Bool) (reason : PlanogramStatusReason)
  | PLANOGRAM_IS_UP_TO_DATE
  | PLANOGRAM_UPDATE_FAILED
deriving DecidableEq, Repr

/-- The PlanogramLogic state the modelled claims consult:
current_planogram and new_planogram are per-unit optional layouts
(lists of length MAX_UNITS), new_variants is reduced to the obj_id
projection, which is all _validate_new_planogram_against_reservations
reads of it. -/
structure PlanogramState where
  current_planogram : List (Option UnitTrays)
  new_planogram : List (Option UnitTrays)
  new_variant_ids : List Nat
deriving DecidableEq, Repr

/-- Keys of a dict in insertion order. -/
def keysOf (m : List (Nat × α)) : List Nat :=
  m.map Prod.fst

/-- set(a) == set(b) on dict keys. -/
def keySetEq (a b : List Nat) : Bool :=
  a.all (fun k => b.contains k) && b.all (fun k => a.contains k)

/-- The slot field comparison in _compare_planogram_trays. -/
def compareSlot (s1 s2 : SlotInfo) : Bool :=
  s1.width == s2.width && s1.depth == s2.depth && s1.variant_id == s2.variant_id

/-- The body of PlanogramLogic._compare_planogram_trays: equal tray key
sets, per tray equal location key sets, and equal width, depth and
variant_id per slot.  In the source this method is decorated
@staticmethod yet keeps self as its first parameter, so its two-argument
call sites raise TypeError before this body ever runs; the body is
embedded here as written. -/
def compare_planogram_trays (current_trays new_trays : UnitTrays) : Bool :=
  if current_trays.length != new_trays.length then false
  else if !keySetEq (keysOf current_trays) (keysOf new_trays) then false
  else current_trays.all (fun kv =>
    match assocGet new_trays kv.fst with
    | none => false
    | some new_tray =>
        let curr_tray := kv.snd
        if curr_tray.length != new_tray.length then false
        else if !keySetEq (keysOf curr_tray) (keysOf new_tray) then false
        else curr_tray.all (fun lv =>
          match assocGet new_tray lv.fst with
          | none => false
          | some new_slot => compareSlot lv.snd new_slot))

/-- The call self._compare_planogram_trays(cur, new) as executed by
Python: _compare_planogram_trays is a staticmethod whose declared
parameters are (self, current_trays, new_trays), so the two-argument
call raises TypeError (missing positional argument) without evaluating
the comparison body. -/
def comparePlanogramTraysCall (_current _new : Option UnitTrays) :
    Except PyError Bool :=
  .error .typeError

/-- The is_equal loop of _planogram_updated_event_handler over the
units (MAX_UNITS = 1): each iteration calls the comparison and breaks
on inequality; the first call already raises. -/
def compareUnitsCall (current new : List (Option UnitTrays)) :
    Except PyError Bool :=
  match comparePlanogramTraysCall (current.getD 0 none) (new.getD 0 none) with
  | .error e => .error e
  | .ok is_equal => .ok is_equal

/-- The item collection of _validate_new_planogram_against_reservations
over one cart's items: every item's variant id is appended to
reserved_variants, and the walk aborts (None) as soon as a variant is
absent from the staged variant list. -/
def collectFromItems (new_variant_ids : List Nat) (acc : List Nat) :
    List CartItem → Option (List Nat)
  | [] => some acc
  | item :: rest =>
      let acc2 := acc ++ [item.variant_id]
      if new_variant_ids.contains item.variant_id then
        collectFromItems new_variant_ids acc2 rest
      else none

/-- The cart walk of _validate_new_planogram_against_reservations: only
REMOTE carts in PRERESERVATION or RESERVED contribute items. -/
def collectFromCarts (db : Db) (new_variant_ids : List Nat) (acc : List Nat) :
    List Cart → Option (List Nat)
  | [] => some acc
  | cart :: rest =>
      if cart.cart_type == .REMOTE &&
          (cart.status == .PRERESERVATION || cart.status == .RESERVED) then
        match collectFromItems new_variant_ids acc (db.get_cart_items cart.obj_id) with
        | none => none
        | some acc2 => collectFromCarts db new_variant_ids acc2 rest
      else
        collectFromCarts db new_variant_ids acc rest

/-- Counting a variant's current slots in one unit, as the source
executes it: a current layout of None raises on None.items(), and a
non-empty tray dict raises AttributeError on the first iteration
because the code calls tray.item() instead of tray.items(); only an
empty tray dict completes, with count 0. -/
def countCurrentSlots (curr_trays : Option UnitTrays) (_var_id : Nat) :
    Except PyError Int :=
  match curr_trays with
  | none => .error .attributeError
  | some [] => .ok 0
  | some (_ :: _) => .error .attributeError

/-- Counting a variant's slots in the new layout (this loop does use
tray.items() and completes normally). -/
def countSlots (trays : UnitTrays) (var_id : Nat) : Int :=
  trays.foldl (fun acc kv =>
    acc + ((kv.snd.filter (fun s => s.snd.variant_id == var_id)).length : Int)) 0

/-- The per-variant, per-unit slot count check (MAX_UNITS = 1); .ok
true means the variant occupies strictly fewer slots in the new
layout. -/
def validateSlotCountsForVariant (st : PlanogramState) (var_id : Nat) :
    Except PyError Bool :=
  match countCurrentSlots (st.current_planogram.getD 0 none) var_id with
  | .error e => .error e
  | .ok currentCount =>
      match st.new_planogram.getD 0 none with
      | none => .error .attributeError
      | some new_trays =>
          .ok (decide (currentCount > countSlots new_trays var_id))

/-- The second phase of the validation over the collected reserved
variants. -/
def validateSlotCounts (st : PlanogramState) :
    List Nat → Except PyError (Bool × PlanogramStatusReason)
  | [] => .ok (true, .NO_REASON)
  | v :: vs =>
      match validateSlotCountsForVariant st v with
      | .error e => .error e
      | .ok true => .ok (false, .RESERVED_PRODUCT_OCCUPIES_LESS_SLOTS)
      | .ok false => validateSlotCounts st vs

/-- PlanogramLogic._validate_new_planogram_against_reservations from
logic/planogram.py lines 774-808.  Its first repository access is
Database.get_carts, which raises TypeError as soon as any cart row
exists and returns the empty list otherwise; with no carts both phases
run over empty data and the function returns (True, NO_REASON).  The
cart walk, the absent-variant branch and the slot-count phase with its
tray.item() AttributeError are therefore dead code past that fetch,
embedded as written. -/
def validate_new_planogram_against_reservations (st : PlanogramState)
    (db : Db) : Except PyError (Bool × PlanogramStatusReason) :=
  match db.get_carts with
  | .error e => .error e
  | .ok carts =>
      match collectFromCarts db st.new_variant_ids [] carts with
      | none => .ok (false, .RESERVED_PRODUCT_ABSENT)
      | some reserved_variants => validateSlotCounts st reserved_variants

/-- PlanogramLogic._planogram_updated_event_handler from lines 345-435,
starting after the planogram GET succeeded, with fetched the per-unit
layouts built from the stocks.  Every unit must have data, then the
comparison with the current layout runs; because that call raises
TypeError, which no except clause of the handler catches, the finally
clause posts PLANOGRAM_UPDATE_FAILED (is_ok is still False) and the
worker thread dies.  The branches below the comparison mirror the
source but are unreachable.  _apply_new_data touches only the product,
collection, variant and media tables and the UI model file, none of
which affect inventory or reservations, so the database value is
returned unchanged by that (unreachable) branch. -/
def planogram_updated_event_handler (st : PlanogramState) (db : Db)
    (fetched : List (Option UnitTrays)) (fetched_variant_ids : List Nat) :
    PlanogramState × Db × List PlanogramBusEvent :=
  let st2 := { st with new_planogram := fetched }
  if fetched.any Option.isNone then
    (st2, db, [.PLANOGRAM_UPDATE_FAILED])
  else
    match compareUnitsCall st2.current_planogram st2.new_planogram with
    | .error _ => (st2, db, [.PLANOGRAM_UPDATE_FAILED])
    | .ok is_equal =>
        let st3 := { st2 with new_variant_ids := fetched_variant_ids }
        if is_equal then
          (st3, db, [.PLANOGRAM_IS_UP_TO_DATE])
        else
          match validate_new_planogram_against_reservations st3 db with
          | .error _ => (st3, db, [.PLANOGRAM_UPDATE_FAILED])
          | .ok (status, reason) =>
              (st3, db, [.NEW_PLANOGRAM_AVAILABLE status reason])

/-! ### Concrete states used by counterexamples and witnesses -/

/-- An empty database. -/
def emptyDb : Db :=
  ⟨[], [], [], [], [], 1, 1, 1⟩

/-- Database of scenario S2: one slot, unit 1 tray 1 location 1 holding
3 pieces of variant 100, no carts, no reservations. -/
def c1Db : Db :=
  ⟨[], [], [], [⟨1, 1, 1, 100, 1, 3, 1⟩], [], 1, 1, 1⟩

/-- Database for the C10 counterexample: two slots of variant 100 in
unit 1 that share location number 1 on different trays (5 pieces each),
and a reservation of 5 pieces held by cart 77 at unit 1 location 1. -/
def c10Db : Db :=
  ⟨[], [], [⟨1, 77, 100, 1, 1, 5⟩], [⟨1, 1, 1, 100, 1, 5, 1⟩, ⟨1, 2, 1, 100, 1, 5, 1⟩], [], 1, 2, 1⟩

/-- Database for the C10 witness: one slot of variant 100 with 3
pieces and no reservations. -/
def c10WitnessDb : Db :=
  ⟨[], [], [], [⟨1, 1, 1, 100, 1, 3, 1⟩], [], 1, 1, 1⟩

/-- Database for the C6 theorem: cart 1 is a LOCAL cart holding 2
pieces of variant 100, not yet assigned a transaction. -/
def c6Db : Db :=
  ⟨[⟨1, 1, "unassigned#1", .LOCAL, "", .CREATED, .UNDEFINED, 0⟩],
   [⟨1, 100, 2⟩], [], [⟨1, 1, 1, 100, 1, 3, 1⟩], [], 2, 1, 1⟩

/-- The outcome of begin_transaction on c6Db when the cloud returns
transactionId T1 at monotonic time 50 and wall time 1000. -/
def c6Out : BeginTransactionOutcome :=
  begin_transaction defaultCartConfig 50 1000 c6Db [] 1 (.response (some "T1"))

/-- A one-unit layout: tray 1 with location 1 holding variant 100. -/
def sampleTrays : UnitTrays :=
  [(1, [(1, ⟨1, 1, 100⟩)])]

/-- Planogram state for the C2 theorem: the current layout is
sampleTrays, nothing staged. -/
def c2St : PlanogramState :=
  ⟨[some sampleTrays], [none], []⟩

/-- Planogram state for the C5 theorem: current and staged layouts are
sampleTrays; variant 100 is among the staged variants. -/
def c5St : PlanogramState :=
  ⟨[some sampleTrays], [some sampleTrays], [100]⟩

/-- Database for the C5 theorem: a REMOTE cart in PRERESERVATION whose
single item is one piece of variant 100, with a matching reservation. -/
def c5Db : Db :=
  ⟨[⟨1, 0, "X", .REMOTE, "", .PRERESERVATION, .UNDEFINED, 0⟩],
   [⟨1, 100, 1⟩], [⟨1, 1, 100, 1, 1, 1⟩], [⟨1, 1, 1, 100, 1, 3, 1⟩], [], 2, 2, 1⟩

/-- Database of scenario S2 with the cart already present: as c1Db plus
a cart row carrying the transaction id the update call uses. -/
def c1DbCart : Db :=
  ⟨[⟨1, 1, "unassigned#1", .LOCAL, "", .CREATED, .UNDEFINED, 0⟩],
   [], [], [⟨1, 1, 1, 100, 1, 3, 1⟩], [], 2, 1, 1⟩

/-- The free quantities of a slot list against a fixed reservation
snapshot. -/
def freeSum (init : List Reservation) (items : List InventoryItem) : Int :=
  (items.map (fun i => i.quantity - alreadyReservedAt init i.unit_id i.location)).sum

/-! ### Theorems.  Claims C1 to C10 and their supporting lemmas. -/

/-- C3, counterexample: with is_hw_error_indicated set and the door
closed, the first evaluation from STARTUP reaches ERROR and a second
consecutive evaluation with the very same latch valuation moves the FSM
on to UPDATE, because _init_fsm guards the transition from ERROR to
UPDATE with _check_error_condition.  Re-evaluating with the same inputs
does change the state, contradicting the claim. -/
theorem machine_fsm_second_evaluation_changes_state :
    (machineRunState ⟨false, false, false, true, false⟩
        (machineFsmAt .STARTUP)).current_state = some .ERROR
    ∧ (machineRunState ⟨false, false, false, true, false⟩
        (machineRunState ⟨false, false, false, true, false⟩
          (machineFsmAt .STARTUP))).current_state = some .UPDATE := by
  decide

/-- C3, amended: for every state of the machine FSM as configured by
_init_fsm and every fixed latch valuation in which hw_error does not
hold with the door closed, a second consecutive evaluation with
unchanged inputs leaves the state reached by the first evaluation
unchanged.  (When hw_error holds with the door closed the FSM can keep
moving: BUSY to ERROR and ERROR to UPDATE.) -/
theorem machine_fsm_idempotent_unless_hw_error (s : MachineState)
    (pl rdy door err disp : Bool) (h : err = true → door = true) :
    (machineRunState ⟨pl, rdy, door, err, disp⟩
        (machineRunState ⟨pl, rdy, door, err, disp⟩
          (machineFsmAt s))).current_state
      = (machineRunState ⟨pl, rdy, door, err, disp⟩
          (machineFsmAt s)).current_state := by
  cases s <;> revert h <;> revert pl rdy door err disp <;> decide

/-- Witness for the amended C3 theorem at state ERROR with every latch
cleared except the planogram and dispenser ones. -/
theorem machine_fsm_idempotent_unless_hw_error_witness :
    (machineRunState ⟨true, true, false, false, false⟩
        (machineRunState ⟨true, true, false, false, false⟩
          (machineFsmAt .ERROR))).current_state
      = (machineRunState ⟨true, true, false, false, false⟩
          (machineFsmAt .ERROR)).current_state :=
  machine_fsm_idempotent_unless_hw_error .ERROR true true false false false
    (by decide)

/-- C4, counterexample: starting from STARTUP with planogram_present
false and dispenser_ready false, delivering HW_DISPENSER_IS_READY does
not leave the machine in STARTUP: _check_unavailable_condition is
satisfied and the FSM moves to UNAVAILABLE. -/
theorem machine_s6_hw_ready_leaves_startup :
    machineAfterHwReady.fst.fsm.current_state = some .UNAVAILABLE
    ∧ machineAfterHwReady.fst.fsm.current_state ≠ some .STARTUP := by
  decide

/-- C4, amended: from STARTUP with both latches false, delivering
HW_DISPENSER_IS_READY moves the machine to UNAVAILABLE, posting
STARTUP_COMPLETE on exit of STARTUP and MACHINE_STATE_CHANGED carrying
STARTUP (the enter callback reads get_current_state() before the new
state is committed); then PLANOGRAM_UPDATE_DONE with the planogram now
present moves it to AVAILABLE posting MACHINE_STATE_CHANGED carrying
UNAVAILABLE; then DOOR_STATE_CHANGED with open true moves it to
MAINTENANCE posting MACHINE_STATE_CHANGED carrying AVAILABLE. -/
theorem machine_s6_path :
    machineAfterHwReady.fst.fsm.current_state = some .UNAVAILABLE
    ∧ machineAfterHwReady.snd
        = [.STARTUP_COMPLETE, .MACHINE_STATE_CHANGED (some .STARTUP)]
    ∧ machineAfterPlanogram.fst.fsm.current_state = some .AVAILABLE
    ∧ machineAfterPlanogram.snd
        = [.MACHINE_STATE_CHANGED (some .UNAVAILABLE)]
    ∧ machineAfterDoorOpen.fst.fsm.current_state = some .MAINTENANCE
    ∧ machineAfterDoorOpen.snd
        = [.MACHINE_STATE_CHANGED (some .AVAILABLE)] := by
  decide

/-- The loop of FSMState.get_next_state returns the target of the first
transition, in insertion order, whose predicate is true. -/
theorem getNextStateFrom_eq_find (env : ε)
    (ts : List (FSMTransition σ ε β)) :
    getNextStateFrom env ts
      = (ts.find? (fun t => t.cond_checker env)).map FSMTransition.to_state := by
  induction ts with
  | nil => rfl
  | cons t ts ih =>
      by_cases h : t.cond_checker env = true
      · simp [getNextStateFrom, FSMTransition.should_transition, List.find?, h]
      · simp only [Bool.not_eq_true] at h
        simp [getNextStateFrom, FSMTransition.should_transition, List.find?, h, ih]

/-- C9: on a single step from a defined current state the FSM evaluates
the current state's transitions in insertion order; if none of the
predicates is true the state is unchanged and no callback runs, and
otherwise the FSM commits the target of the first true transition,
invoking the old state's exit callback before the new state's enter
callback (both still observe the old current state). -/
theorem fsm_run_first_active_transition [DecidableEq σ]
    (m : FSM σ ε β) (env : ε) (cur : σ) (curSt : FSMState σ ε β)
    (hcur : m.current_state = some cur)
    (hst : assocGet m.states cur = some curSt) :
    (curSt.get_next_state env
        = (curSt.transitions.find? (fun t => t.cond_checker env)).map
            FSMTransition.to_state)
    ∧ (curSt.transitions.find? (fun t => t.cond_checker env) = none →
        m.run env = (m, []))
    ∧ (∀ t nextSt,
        curSt.transitions.find? (fun t => t.cond_checker env) = some t →
        assocGet m.states t.to_state = some nextSt →
        m.run env = ({ m with current_state := some t.to_state },
                     curSt.on_exit (some cur) ++ nextSt.on_enter (some cur))) := by
  refine ⟨getNextStateFrom_eq_find env curSt.transitions, ?_, ?_⟩
  · intro hnone
    simp [FSM.run, hcur, hst, FSMState.get_next_state,
      getNextStateFrom_eq_find, hnone]
  · intro t nextSt hfind hnext
    simp [FSM.run, hcur, hst, FSMState.get_next_state,
      getNextStateFrom_eq_find, hfind, hnext]

/-- Witness for the C9 theorem: running the concrete two-state FSM
activates its single transition, emits the exit event 5 followed by the
enter event 7 and commits state 1. -/
theorem fsm_run_first_active_transition_witness :
    wFsm.run () = ({ wFsm with current_state := some 1 },
                   wExitZero (some 0) ++ wEnterOne (some 0)) :=
  (fsm_run_first_active_transition wFsm () 0 wStZero rfl rfl).2.2
    ⟨1, wCondTrue⟩ wStOne rfl rfl

/-- Removing the rightmost element of a list ending in x yields x. -/
theorem popRight_concat (l : List α) (x : α) :
    popRight (l ++ [x]) = some (x, l) := by
  induction l with
  | nil => rfl
  | cons a l ih =>
      cases l with
      | nil => rfl
      | cons b l' =>
          simp only [List.cons_append] at ih ⊢
          simp [popRight, ih]

/-- Draining the whole-of-an-empty low queue yields nothing. -/
theorem drainDeliverLow_nil [DecidableEq τ] (etype : ν → τ)
    (subs : List (τ × List η)) (n : Nat) :
    drainDeliverLow etype subs n ([] : List ν) = ([], []) := by
  induction n with
  | zero => rfl
  | succ n ih => simp [drainDeliverLow, popRight, ih]

/-- Draining n events from a queue holding the FIFO sequence fifo
delivers the first n posted events, oldest first, each to all its
subscribed handlers, and leaves the rest queued. -/
theorem drainDeliver_eq [DecidableEq τ] (etype : ν → τ)
    (subs : List (τ × List η)) :
    ∀ (n : Nat) (fifo : List ν),
      drainDeliver etype subs n fifo.reverse
        = (deliverAll etype subs (fifo.take n), (fifo.drop n).reverse) := by
  intro n
  induction n with
  | zero => intro fifo; simp [drainDeliver, deliverAll]
  | succ n ih =>
      intro fifo
      cases fifo with
      | nil => simp [drainDeliver, popRight, deliverAll]
      | cons e rest =>
          simp only [List.reverse_cons, drainDeliver, popRight_concat]
          simp [ih rest, deliverAll]

/-- The low-priority drain behaves like the breaking drain. -/
theorem drainDeliverLow_eq [DecidableEq τ] (etype : ν → τ)
    (subs : List (τ × List η)) :
    ∀ (n : Nat) (fifo : List ν),
      drainDeliverLow etype subs n fifo.reverse
        = (deliverAll etype subs (fifo.take n), (fifo.drop n).reverse) := by
  intro n
  induction n with
  | zero => intro fifo; simp [drainDeliverLow, deliverAll]
  | succ n ih =>
      intro fifo
      cases fifo with
      | nil => simp [drainDeliverLow, popRight, drainDeliverLow_nil, deliverAll]
      | cons e rest =>
          simp only [List.reverse_cons, drainDeliverLow, popRight_concat]
          simp [ih rest, deliverAll]

/-- A queue that received the events evs through appendleft holds them
newest first. -/
theorem postAll_nil_eq_reverse (evs : List ν) :
    postAll ([] : List ν) evs = evs.reverse := by
  suffices h : ∀ (q : List ν), postAll q evs = evs.reverse ++ q by
    simpa using h []
  induction evs with
  | nil => intro q; rfl
  | cons e evs ih =>
      intro q
      show postAll (e :: q) evs = (e :: evs).reverse ++ q
      rw [ih (e :: q)]
      simp

/-- C7: with the three queues holding the posted sequences hEvs, nEvs
and lEvs, one dispatcher tick delivers the first 15 high-priority
events, then the first 10 normal-priority events, then the first 5
low-priority events, in that order; within each priority the drained
events are delivered oldest first, each to every handler subscribed to
its type in subscription order, and the remaining events stay queued. -/
theorem event_bus_dispatch_priorities_fifo [DecidableEq τ]
    (etype : ν → τ) (subs : List (τ × List η)) (hEvs nEvs lEvs : List ν) :
    dispatch etype subs (postAll [] hEvs) (postAll [] nEvs) (postAll [] lEvs)
      = (deliverAll etype subs (hEvs.take 15)
          ++ deliverAll etype subs (nEvs.take 10)
          ++ deliverAll etype subs (lEvs.take 5),
         ((hEvs.drop 15).reverse, (nEvs.drop 10).reverse, (lEvs.drop 5).reverse)) := by
  simp [dispatch, postAll_nil_eq_reverse, drainDeliver_eq, drainDeliverLow_eq,
    MAX_NUM_HIGH_PRIO_EVENTS_PER_TIME, MAX_NUM_NORMAL_PRIO_EVENTS_PER_TIME,
    MAX_NUM_LOW_PRIO_EVENTS_PER_TIME]

/-- Erasing elements that all satisfy p from a list headed by an
element that does not leaves the head in place. -/
theorem eraseAll_cons_of_forall [DecidableEq α] (p : α → Bool) :
    ∀ (es l : List α) (x : α), (∀ e ∈ es, p e = true) → p x = false →
      eraseAll (x :: l) es = x :: eraseAll l es := by
  intro es
  induction es with
  | nil => intro l x _ _; rfl
  | cons e es ih =>
      intro l x hall hx
      have hxe : x ≠ e := fun hxe => by
        rw [hxe, hall e (List.mem_cons_self e es)] at hx
        exact Bool.true_eq_false.mp hx
      show eraseAll ((x :: l).erase e) es = x :: eraseAll (l.erase e) es
      rw [List.erase_cons_tail (by simpa using hxe)]
      exact ih (l.erase e) x (fun e' he' => hall e' (List.mem_cons_of_mem e he')) hx

/-- list.remove of each collected element: removing exactly the
elements satisfying p, in order, keeps exactly those that do not. -/
theorem eraseAll_filter [DecidableEq α] (p : α → Bool) (l : List α) :
    eraseAll l (l.filter p) = l.filter (fun a => !p a) := by
  induction l with
  | nil => rfl
  | cons x l ih =>
      by_cases hx : p x = true
      · rw [List.filter_cons_of_pos hx]
        show eraseAll ((x :: l).erase x) (l.filter p) = (x :: l).filter (fun a => !p a)
        rw [List.erase_cons_head, List.filter_cons_of_neg (by simp [hx]), ih]
      · have hx' : p x = false := Bool.eq_false_iff.mpr hx
        rw [List.filter_cons_of_neg (by simp [hx'])]
        have := eraseAll_cons_of_forall p (l.filter p) l x
          (fun e he => List.of_mem_filter he) hx'
        rw [this, ih, List.filter_cons_of_pos (by simp [hx'])]

/-- get_cart returns .ok none precisely when no cart row carries the
requested id; a matching row would make it raise TypeError. -/
theorem get_cart_none (db : Db) (cart_id : Nat)
    (h : ∀ c ∈ db.carts, c.obj_id ≠ cart_id) :
    db.get_cart cart_id = .ok none := by
  have hf : db.carts.find? (fun c => c.obj_id == cart_id) = none :=
    List.find?_eq_none.mpr (fun c hc => by simp [h c hc])
  simp [Db.get_cart, hf]

/-- When no strictly expired item's cart is still in the store, the
short sweep completes without raising, posts nothing, leaves the store
unchanged and collects exactly the strictly expired items. -/
theorem expSweepShort_no_carts (nowMono : Int) :
    ∀ (l : List ExpirationItem) (db : Db),
      (∀ it ∈ l, nowMono > it.exp_at → ∀ c ∈ db.carts, c.obj_id ≠ it.obj_id) →
      expSweepShort nowMono l db
        = .ok ⟨db, [], l.filter (fun it => decide (nowMono > it.exp_at))⟩ := by
  intro l
  induction l with
  | nil => intro db _; rfl
  | cons it rest ih =>
      intro db h
      have htail : ∀ i ∈ rest, nowMono > i.exp_at →
          ∀ c ∈ db.carts, c.obj_id ≠ i.obj_id :=
        fun i hi => h i (List.mem_cons_of_mem it hi)
      by_cases hx : nowMono > it.exp_at
      · have hg : db.get_cart it.obj_id = .ok none :=
          get_cart_none db it.obj_id (h it (List.mem_cons_self it rest) hx)
        simp only [expSweepShort, if_pos hx, hg]
        rw [ih db htail]
        simp [List.filter_cons, hx]
      · simp only [expSweepShort, if_neg hx]
        rw [ih db htail]
        simp [List.filter_cons, hx]

/-- When no strictly expired item's cart is still in the store, the
reservation sweep completes without raising, posts nothing, appends no
retention item, leaves the store unchanged and collects exactly the
strictly expired items. -/
theorem expSweepReservation_no_carts (cfg : CartConfig) (nowMono nowWall : Int) :
    ∀ (l : List ExpirationItem) (db : Db),
      (∀ it ∈ l, nowMono > it.exp_at → ∀ c ∈ db.carts, c.obj_id ≠ it.obj_id) →
      expSweepReservation cfg nowMono nowWall l db
        = .ok ⟨db, [], [], l.filter (fun it => decide (nowMono > it.exp_at))⟩ := by
  intro l
  induction l with
  | nil => intro db _; rfl
  | cons it rest ih =>
      intro db h
      have htail : ∀ i ∈ rest, nowMono > i.exp_at →
          ∀ c ∈ db.carts, c.obj_id ≠ i.obj_id :=
        fun i hi => h i (List.mem_cons_of_mem it hi)
      by_cases hx : nowMono > it.exp_at
      · have hg : db.get_cart it.obj_id = .ok none :=
          get_cart_none db it.obj_id (h it (List.mem_cons_self it rest) hx)
        simp only [expSweepReservation, if_pos hx, hg]
        rw [ih db htail]
        simp [List.filter_cons, hx]
      · simp only [expSweepReservation, if_neg hx]
        rw [ih db htail]
        simp [List.filter_cons, hx]

/-- The order history sweep collects exactly the strictly expired
items. -/
theorem expSweepOrderHistory_erase (nowMono : Int) :
    ∀ (l : List ExpirationItem) (db : Db),
      (expSweepOrderHistory nowMono l db).snd
        = l.filter (fun it => decide (nowMono > it.exp_at)) := by
  intro l
  induction l with
  | nil => intro db; rfl
  | cons it rest ih =>
      intro db
      by_cases h : nowMono > it.exp_at
      · simp [expSweepOrderHistory, h, ih]
      · simp [expSweepOrderHistory, h, ih]

/-- The order history sweep only deletes order history rows; the cart
table is untouched. -/
theorem expSweepOrderHistory_carts (nowMono : Int) :
    ∀ (l : List ExpirationItem) (db : Db),
      (expSweepOrderHistory nowMono l db).fst.carts = db.carts := by
  intro l
  induction l with
  | nil => intro db; rfl
  | cons it rest ih =>
      intro db
      by_cases h : nowMono > it.exp_at
      · simp only [expSweepOrderHistory, if_pos h]
        rw [ih]
        rfl
      · simp only [expSweepOrderHistory, if_neg h]
        exact ih db

/-- C8 (amended): on a sweep tick on which every strictly expired item
of a swept cart list refers to a cart absent from the store (so that
Database.get_cart returns None instead of raising TypeError on an
existing tuple row), each swept expiration list keeps exactly the items
whose deadline is not strictly below the current monotonic time; an
item whose deadline equals the current time stays.  The short list is
swept every tick; the reservation and order history lists only when the
tick counter reaches EXP_TM_TICKS_IN_MINUTE.  On such a tick no cart is
found, so no cart is processed, no event is posted, no retention item
is appended, no exception escapes and the cart table is unchanged; the
order history sweep deletes the records of its strictly expired
items. -/
theorem exp_sweep_keeps_future_items (cfg : CartConfig) (nowMono nowWall : Int)
    (st : CartLogicState)
    (hshort : ∀ it ∈ st.exp_list, nowMono > it.exp_at →
        ∀ c ∈ st.db.carts, c.obj_id ≠ it.obj_id)
    (hres : st.exp_tm_tick_cnt + 1 ≥ EXP_TM_TICKS_IN_MINUTE →
        ∀ it ∈ st.reservation_exp_list, nowMono > it.exp_at →
          ∀ c ∈ st.db.carts, c.obj_id ≠ it.obj_id) :
    ((exp_list_process cfg nowMono nowWall st).fst.exp_list
        = st.exp_list.filter (fun it => !decide (nowMono > it.exp_at)))
    ∧ ((exp_list_process cfg nowMono nowWall st).fst.reservation_exp_list
        = if st.exp_tm_tick_cnt + 1 ≥ EXP_TM_TICKS_IN_MINUTE then
            st.reservation_exp_list.filter (fun it => !decide (nowMono > it.exp_at))
          else st.reservation_exp_list)
    ∧ ((exp_list_process cfg nowMono nowWall st).fst.order_hist_exp_list
        = if st.exp_tm_tick_cnt + 1 ≥ EXP_TM_TICKS_IN_MINUTE then
            st.order_hist_exp_list.filter (fun it => !decide (nowMono > it.exp_at))
          else st.order_hist_exp_list)
    ∧ (exp_list_process cfg nowMono nowWall st).snd.fst = []
    ∧ (exp_list_process cfg nowMono nowWall st).snd.snd = none
    ∧ (exp_list_process cfg nowMono nowWall st).fst.db.carts = st.db.carts := by
  have h1 := expSweepShort_no_carts nowMono st.exp_list st.db hshort
  by_cases h : st.exp_tm_tick_cnt + 1 ≥ EXP_TM_TICKS_IN_MINUTE
  · have h2 := expSweepReservation_no_carts cfg nowMono nowWall
      st.reservation_exp_list st.db (hres h)
    have hmain : exp_list_process cfg nowMono nowWall st
        = (⟨(expSweepOrderHistory nowMono st.order_hist_exp_list st.db).fst,
            st.reservation_exp_list.filter (fun it => !decide (nowMono > it.exp_at)),
            st.exp_list.filter (fun it => !decide (nowMono > it.exp_at)),
            st.order_hist_exp_list.filter (fun it => !decide (nowMono > it.exp_at)),
            0⟩, [], none) := by
      unfold exp_list_process
      rw [h1]
      dsimp only
      rw [if_pos h, h2]
      dsimp only
      rw [List.append_nil, expSweepOrderHistory_erase,
        eraseAll_filter, eraseAll_filter, eraseAll_filter]
      rfl
    rw [hmain]
    exact ⟨rfl, by rw [if_pos h], by rw [if_pos h], rfl, rfl,
      expSweepOrderHistory_carts nowMono st.order_hist_exp_list st.db⟩
  · have hmain : exp_list_process cfg nowMono nowWall st
        = (⟨st.db, st.reservation_exp_list,
            st.exp_list.filter (fun it => !decide (nowMono > it.exp_at)),
            st.order_hist_exp_list, st.exp_tm_tick_cnt + 1⟩, [], none) := by
      unfold exp_list_process
      rw [h1]
      dsimp only
      rw [if_neg h, eraseAll_filter]
    rw [hmain]
    exact ⟨rfl, by rw [if_neg h], by rw [if_neg h], rfl, rfl, rfl⟩

/-- Witness for the amended C8 theorem: time 5, two short items due at
3 and 10 against an empty store; the sweep keeps exactly the item due
at 10. -/
theorem exp_sweep_keeps_future_items_witness :
    (exp_list_process defaultCartConfig 5 0
        ⟨emptyDb, [], [⟨1, 3⟩, ⟨2, 10⟩], [], 0⟩).fst.exp_list
      = ([⟨1, 3⟩, ⟨2, 10⟩] : List ExpirationItem).filter
          (fun it => !decide ((5 : Int) > it.exp_at)) :=
  (exp_sweep_keeps_future_items defaultCartConfig 5 0
      ⟨emptyDb, [], [⟨1, 3⟩, ⟨2, 10⟩], [], 0⟩
      (by decide) (by decide)).1

/-- C8 counterexample: an expiration item whose deadline equals the
current monotonic time (deadline 5, time 5, so deadline is less than
or equal to the current time) is not removed by the sweep, because the
source tests time.monotonic() > exp_at strictly. -/
theorem exp_sweep_keeps_item_due_now :
    (5 : Int) ≤ 5
    ∧ (exp_list_process defaultCartConfig 5 0
        ⟨emptyDb, [], [⟨1, 5⟩], [], 0⟩).fst.exp_list = [⟨1, 5⟩] := by
  exact ⟨le_refl 5, rfl⟩

/-- C1: the spec's S2 scenario (one slot of variant 100 holding 3
pieces, no carts, update of +5 on a fresh LOCAL cart) does not return
NOK: Database.add_cart raises utils.DbError on every call (its INSERT
lists seven columns against six placeholders), update's except clause
turns that into (ERROR, "Internal error"), and nothing at all is
written.  With the cart row already present (second conjunct) the call
instead raises TypeError out of Database.get_cart_by_transaction, which
indexes a tuple row with a string key and which update does not
catch. -/
theorem update_insufficient_stock_internal_error :
    CartLogic_update defaultCartConfig 0 c1Db [] "unassigned#1" 1 .LOCAL 100 5
      = .returned (.ERROR, "Internal error") c1Db []
    ∧ CartLogic_update defaultCartConfig 0 c1DbCart [] "unassigned#1" 1 .LOCAL 100 5
      = .raised .typeError c1DbCart [] :=
  ⟨rfl, rfl⟩

/-- C6: _begin_transaction cannot succeed.  With cart 1 present and
non-empty (c6Db) and the cloud ready to return transactionId T1,
Database.get_cart raises TypeError on its tuple row before anything
else happens: the finally clause posts BEGIN_TRANSACTION_RESPONSE with
success False, the exception escapes (the cart worker thread, which
catches only KeyError, dies), the cart never reaches CHECKOUT and no
expiration item is armed.  With the cart missing (second conjunct) the
failure response is posted twice, once explicitly and once by the
finally clause.  No path posts a success response. -/
theorem begin_transaction_never_succeeds :
    c6Out = ⟨c6Db, [], [.BEGIN_TRANSACTION_RESPONSE 1 false], some .typeError⟩
    ∧ begin_transaction defaultCartConfig 50 1000 emptyDb [] 1 (.response (some "T1"))
        = ⟨emptyDb, [],
           [.BEGIN_TRANSACTION_RESPONSE 1 false, .BEGIN_TRANSACTION_RESPONSE 1 false],
           none⟩ :=
  ⟨rfl, rfl⟩

/-- C2: with the fetched planogram identical to the current in-memory
layout (the embedded comparison body confirms the equality, first
conjunct), the notification handler still posts
PLANOGRAM_UPDATE_FAILED instead of PLANOGRAM_IS_UP_TO_DATE, because
the call to _compare_planogram_trays raises TypeError: the method is
declared @staticmethod but keeps self as first parameter.  The store
(inventory and reservations) is returned untouched. -/
theorem planogram_identical_update_failed :
    compare_planogram_trays sampleTrays sampleTrays = true
    ∧ planogram_updated_event_handler c2St c5Db [some sampleTrays] []
        = ({ c2St with new_planogram := [some sampleTrays] }, c5Db,
           [.PLANOGRAM_UPDATE_FAILED]) :=
  ⟨rfl, rfl⟩

/-- C5: the validation never reaches its rules.  With any cart row
present (here the REMOTE PRERESERVATION cart of c5Db holding the staged
variant 100), _validate_new_planogram_against_reservations raises
TypeError inside Database.get_carts, which indexes its tuple rows with
string keys, before looking at a single reservation; the handler
catches no TypeError.  Only with an empty cart table does the function
return, and then vacuously (True, NO_REASON): the absent-variant and
slot-count rejections the claim describes, and the tray.item()
AttributeError behind them, are unreachable because they all need a
cart. -/
theorem validate_reservations_type_error :
    validate_new_planogram_against_reservations c5St c5Db
        = .error .typeError
    ∧ validate_new_planogram_against_reservations c5St emptyDb
        = .ok (true, .NO_REASON) :=
  ⟨rfl, rfl⟩

/-- Folding addition of a projection equals the sum of the mapped
list. -/
theorem foldl_add_shift {α : Type} (g : α → Int) :
    ∀ (l : List α) (init : Int),
      l.foldl (fun a x => a + g x) init = init + (l.map g).sum := by
  intro l
  induction l with
  | nil => intro init; simp
  | cons x l ih =>
      intro init
      show l.foldl _ (init + g x) = init + ((x :: l).map g).sum
      rw [ih (init + g x)]
      simp [List.sum_cons]
      ring

/-- resQuantitySum as a mapped sum. -/
theorem resQuantitySum_eq_sum (rs : List Reservation) :
    resQuantitySum rs = (rs.map (fun r => r.quantity)).sum := by
  unfold resQuantitySum
  rw [foldl_add_shift]
  simp

/-- invQuantitySum as a mapped sum. -/
theorem invQuantitySum_eq_sum (items : List InventoryItem) :
    invQuantitySum items = (items.map (fun i => i.quantity)).sum := by
  unfold invQuantitySum
  rw [foldl_add_shift]
  simp

/-- Sum over a cons. -/
theorem resQuantitySum_cons (r : Reservation) (rs : List Reservation) :
    resQuantitySum (r :: rs) = r.quantity + resQuantitySum rs := by
  simp [resQuantitySum_eq_sum]

/-- Sum over an append. -/
theorem resQuantitySum_append (a b : List Reservation) :
    resQuantitySum (a ++ b) = resQuantitySum a + resQuantitySum b := by
  simp [resQuantitySum_eq_sum]

/-- Sum over a filtered cons. -/
theorem filterSum_cons (p : Reservation → Bool) (x : Reservation)
    (xs : List Reservation) :
    resQuantitySum ((x :: xs).filter p)
      = (if p x then x.quantity else 0) + resQuantitySum (xs.filter p) := by
  by_cases hp : p x = true
  · rw [List.filter_cons_of_pos hp, resQuantitySum_cons, if_pos hp]
  · rw [List.filter_cons_of_neg hp, if_neg hp]
    ring

/-- freeSum over a cons. -/
theorem freeSum_cons (init : List Reservation) (item : InventoryItem)
    (rest : List InventoryItem) :
    freeSum init (item :: rest)
      = (item.quantity - alreadyReservedAt init item.unit_id item.location)
        + freeSum init rest := by
  simp [freeSum]

/-- Every call of add_or_update_reservation blocks forever: both its
branches re-acquire the repository lock the method itself holds. -/
theorem aou_never_returns (db : Db) (r : Reservation) :
    db.add_or_update_reservation r = none := by
  unfold Db.add_or_update_reservation
  cases db.reservations.find? (fun row =>
      row.cart_id == r.cart_id && row.unit_id == r.unit_id &&
      row.location == r.location && row.variant_id == r.variant_id) <;> rfl

/-- With a positive remaining amount, the slot walk of _do_reservation
completes only when every visited slot is exactly full (any other slot
sends it into add_or_update_reservation, which never returns), and a
completed walk has written nothing. -/
theorem doReservationWalk_some (c v : Nat) (init : List Reservation) :
    ∀ (items : List InventoryItem) (a : Int) (db db2 : Db),
      0 < a →
      doReservationWalk c v init items a db = some db2 →
      db2 = db
      ∧ ∀ i ∈ items, i.quantity = alreadyReservedAt init i.unit_id i.location := by
  intro items
  induction items with
  | nil =>
      intro a db db2 hpos hsome
      simp only [doReservationWalk] at hsome
      exact ⟨(Option.some_inj.mp hsome).symm,
        fun i hi => absurd hi (List.not_mem_nil i)⟩
  | cons item rest ih =>
      intro a db db2 hpos hsome
      simp only [doReservationWalk] at hsome
      by_cases h1 : item.quantity - alreadyReservedAt init item.unit_id item.location ≥ a
      · rw [if_pos h1, aou_never_returns] at hsome
        exact Option.noConfusion hsome
      · rw [if_neg h1] at hsome
        by_cases h2 : (item.quantity
            == alreadyReservedAt init item.unit_id item.location) = true
        · rw [if_pos h2] at hsome
          obtain ⟨hdb, hall⟩ := ih a db db2 hpos hsome
          refine ⟨hdb, fun i hi => ?_⟩
          rcases List.mem_cons.mp hi with rfl | hi2
          · exact beq_iff_eq.mp h2
          · exact hall i hi2
        · rw [if_neg h2, aou_never_returns] at hsome
          exact Option.noConfusion hsome

/-- A slot list in which every slot is exactly full has zero total free
quantity. -/
theorem freeSum_zero_of_full (init : List Reservation) :
    ∀ (items : List InventoryItem),
      (∀ i ∈ items, i.quantity = alreadyReservedAt init i.unit_id i.location) →
      freeSum init items = 0 := by
  intro items
  induction items with
  | nil => intro _; rfl
  | cons item rest ih =>
      intro h
      rw [freeSum_cons, h item (List.mem_cons_self item rest),
        ih (fun i hi => h i (List.mem_cons_of_mem item hi))]
      ring

/-- A sum of nonnegative reservation quantities is nonnegative. -/
theorem resQuantitySum_nonneg (rs : List Reservation)
    (h : ∀ r ∈ rs, 0 ≤ r.quantity) : 0 ≤ resQuantitySum rs := by
  induction rs with
  | nil => simp [resQuantitySum]
  | cons r rs ih =>
      rw [resQuantitySum_cons]
      have h1 := h r (List.mem_cons_self r rs)
      have h2 := ih (fun x hx => h x (List.mem_cons_of_mem r hx))
      omega

/-- Splitting a sum along a predicate. -/
theorem resQuantitySum_filter_partition (p : Reservation → Bool)
    (rs : List Reservation) :
    resQuantitySum (rs.filter p) + resQuantitySum (rs.filter (fun x => !p x))
      = resQuantitySum rs := by
  induction rs with
  | nil => simp [resQuantitySum]
  | cons r rs ih =>
      rw [filterSum_cons, filterSum_cons, resQuantitySum_cons]
      by_cases hp : p r = true
      · simp only [hp, if_pos]
        simp only [Bool.not_true, Bool.false_eq_true, if_false]
        omega
      · have hp' : p r = false := Bool.eq_false_iff.mpr hp
        simp only [hp', Bool.false_eq_true, if_false, Bool.not_false, if_pos]
        omega

/-- Dropping the reservations of one slot does not change the total of
a different slot. -/
theorem alreadyReservedAt_filter_ne (init : List Reservation) (u0 l0 u l : Nat)
    (h : u ≠ u0 ∨ l ≠ l0) :
    alreadyReservedAt
        (init.filter (fun r => !(r.unit_id == u0 && r.location == l0))) u l
      = alreadyReservedAt init u l := by
  unfold alreadyReservedAt
  induction init with
  | nil => rfl
  | cons r rs ih =>
      by_cases hq : (r.unit_id == u && r.location == l) = true
      · have hru : r.unit_id = u ∧ r.location = l := by
          simpa [Bool.and_eq_true, beq_iff_eq] using hq
        have hnp : (!(r.unit_id == u0 && r.location == l0)) = true := by
          rcases h with h | h
          · simp [hru.1, h]
          · simp [hru.2, h]
        simp only [List.filter_cons, hnp, hq, if_true, resQuantitySum_cons]
        rw [ih]
      · have hq' : (r.unit_id == u && r.location == l) = false :=
          Bool.eq_false_iff.mpr hq
        by_cases hnp : (!(r.unit_id == u0 && r.location == l0)) = true
        · simp only [List.filter_cons, hnp, if_true, hq', Bool.false_eq_true,
            if_false]
          exact ih
        · have hnp' : (!(r.unit_id == u0 && r.location == l0)) = false :=
            Bool.eq_false_iff.mpr hnp
          simp only [List.filter_cons, hnp', Bool.false_eq_true, if_false, hq']
          exact ih

/-- Pointwise equal maps have equal sums. -/
theorem sum_map_congr {α : Type} (f g : α → Int) :
    ∀ (l : List α), (∀ a ∈ l, f a = g a) → (l.map f).sum = (l.map g).sum := by
  intro l
  induction l with
  | nil => intro _; rfl
  | cons x l ih =>
      intro h
      simp only [List.map_cons, List.sum_cons]
      rw [h x (List.mem_cons_self x l), ih (fun a ha => h a (List.mem_cons_of_mem x ha))]

/-- With pairwise distinct slot keys and nonnegative stored quantities,
the per-slot reserved totals sum to at most the overall total. -/
theorem sum_already_le :
    ∀ (items : List InventoryItem) (init : List Reservation),
      (∀ r ∈ init, 0 ≤ r.quantity) →
      items.Pairwise (fun x y => x.unit_id ≠ y.unit_id ∨ x.location ≠ y.location) →
      (items.map (fun i => alreadyReservedAt init i.unit_id i.location)).sum
        ≤ resQuantitySum init := by
  intro items
  induction items with
  | nil =>
      intro init hnn _
      simpa using resQuantitySum_nonneg init hnn
  | cons item rest ih =>
      intro init hnn hpw
      have hpart := resQuantitySum_filter_partition
        (fun r => r.unit_id == item.unit_id && r.location == item.location) init
      have hmapeq : (rest.map (fun i => alreadyReservedAt init i.unit_id i.location)).sum
          = (rest.map (fun i => alreadyReservedAt
              (init.filter (fun r =>
                !(r.unit_id == item.unit_id && r.location == item.location)))
              i.unit_id i.location)).sum := by
        refine (sum_map_congr _ _ rest ?_).symm
        intro j hj
        exact alreadyReservedAt_filter_ne init item.unit_id item.location
          j.unit_id j.location
          ((List.rel_of_pairwise_cons hpw hj).imp Ne.symm Ne.symm)
      have hih := ih (init.filter (fun r =>
          !(r.unit_id == item.unit_id && r.location == item.location)))
        (fun r hr => hnn r (List.mem_of_mem_filter hr)) hpw.of_cons
      simp only [List.map_cons, List.sum_cons]
      rw [hmapeq]
      have hhead : alreadyReservedAt init item.unit_id item.location
          = resQuantitySum (init.filter (fun r =>
              r.unit_id == item.unit_id && r.location == item.location)) := rfl
      omega

/-- freeSum as total stock minus the per-slot reserved totals. -/
theorem freeSum_eq (init : List Reservation) (items : List InventoryItem) :
    freeSum init items
      = invQuantitySum items
        - (items.map (fun i => alreadyReservedAt init i.unit_id i.location)).sum := by
  rw [invQuantitySum_eq_sum]
  unfold freeSum
  induction items with
  | nil => simp
  | cons item rest ih =>
      simp only [List.map_cons, List.sum_cons]
      rw [ih]
      ring

/-- C10 (amended): for every call of _do_reservation with a positive
amount, provided the variant's inventory slots occupy pairwise
distinct (unit, location) pairs and the stored reservation quantities
are nonnegative: either the free-stock check fails and the call
returns False having written nothing, or the call never returns.  When
the check passes, the walk must reach a slot with free capacity, and
writing to it enters add_or_update_reservation, whose both branches
block forever on the repository lock the method already holds (its
insert branch's SQL is truncated besides); so the True return promised
by the claim, with reservations summing to the requested amount, never
happens. -/
theorem do_reservation_spec (db : Db) (cart_id var_id : Nat) (amount : Int)
    (hpos : 0 < amount)
    (hnn : ∀ r ∈ db.get_reservations var_id, 0 ≤ r.quantity)
    (hdist : (db.get_inventory_items_by_variant var_id).Pairwise
        (fun x y => x.unit_id ≠ y.unit_id ∨ x.location ≠ y.location)) :
    do_reservation db cart_id var_id amount = some (false, db)
    ∨ do_reservation db cart_id var_id amount = none := by
  by_cases hcond : (invQuantitySum (db.get_inventory_items_by_variant var_id) > 0
      ∧ invQuantitySum (db.get_inventory_items_by_variant var_id)
          - resQuantitySum (db.get_reservations var_id) ≥ amount)
  · right
    simp only [do_reservation]
    rw [if_pos hcond]
    cases hwalk : doReservationWalk cart_id var_id (db.get_reservations var_id)
        (db.get_inventory_items_by_variant var_id) amount db with
    | none => rfl
    | some db2 =>
        exfalso
        obtain ⟨-, hall⟩ := doReservationWalk_some cart_id var_id
          (db.get_reservations var_id) (db.get_inventory_items_by_variant var_id)
          amount db db2 hpos hwalk
        have hzero := freeSum_zero_of_full (db.get_reservations var_id)
          (db.get_inventory_items_by_variant var_id) hall
        rw [freeSum_eq] at hzero
        have hle := sum_already_le (db.get_inventory_items_by_variant var_id)
          (db.get_reservations var_id) hnn hdist
        obtain ⟨h1, h2⟩ := hcond
        omega
  · left
    simp only [do_reservation]
    rw [if_neg hcond]

/-- C10 counterexample: slots are keyed by (unit, tray, location) while
reservations carry only (unit, location), and the reservation snapshot
is not refreshed during the walk.  In c10Db variant 100 sits in two
5-piece slots that alias on (unit 1, location 1) and a foreign cart
holds 5 pieces there; the claim's precondition holds (amount 5
positive, total reserved 5 not exceeding total stock 10), the call
completes and returns True, yet it writes nothing: the reservation
quantities added or merged sum to 0, not to the requested 5. -/
theorem do_reservation_aliasing_counterexample :
    (0 : Int) < 5
    ∧ resQuantitySum (c10Db.get_reservations 100)
        ≤ invQuantitySum (c10Db.get_inventory_items_by_variant 100)
    ∧ do_reservation c10Db 1 100 5 = some (true, c10Db) := by
  refine ⟨by decide, by decide, rfl⟩

/-- Witness for the amended C10 theorem: one 3-piece slot of variant
100, no reservations, amount 2: the stock check passes, the first slot
has free capacity, and the call disappears into
add_or_update_reservation, never returning. -/
theorem do_reservation_spec_witness :
    do_reservation c10WitnessDb 1 100 2 = some (false, c10WitnessDb)
    ∨ do_reservation c10WitnessDb 1 100 2 = none :=
  do_reservation_spec c10WitnessDb 1 100 2 (by decide)
    (fun r hr => absurd hr (List.not_mem_nil r))
    (List.pairwise_singleton _ _)
